import Mathlib

/-!
# Verification of the pcf-toolkit manifest core

A shallow embedding of the pcf-toolkit repository's core
(`src/pcf_toolkit/types.py`, `models.py`, `xml.py`, `xml_import.py`)
together with proofs of the specification's testable properties.

Modelling conventions:
* XML is modelled at the element-tree level (`Elem`): tag, attribute
  association list, text content, children.  `xml.ElementTree` text
  serialization/parsing round-trips the tree structurally (whitespace
  from `ET.indent` only touches elements that have children, whose text
  the importer never reads), and the `include_declaration` flag only
  affects the text header, so the tree level is the faithful granularity
  for the importer/serializer contracts.
* Plain data ("dicts" produced by the importer and consumed by the
  pydantic models) is `PValue`: strings, ints, bools, lists and
  association-list dicts.  Keys in dicts produced by the code are unique.
* Pydantic construction is embedded as explicit validators
  `validate_* : PObj → Except (List VErr) Model` collecting one error per
  violated field constraint (field errors are accumulated across fields;
  an `@model_validator(mode="after")` runs only when every field
  validated, mirroring pydantic v2).
* Python `str.strip`, `str.lower`, `str.isalnum` and `int(...)` are
  embedded on ASCII character lists (`py_strip`, `py_lower`,
  `py_isalnum`, `parse_py_int`); the Unicode extensions of the Python
  originals are irrelevant to the manifest grammar.
-/

namespace Pcf

/-! ## Plain data values (Python dicts/lists/scalars) -/

inductive PValue where
  | PStr (s : String)
  | PInt (n : Int)
  | PBool (b : Bool)
  | PList (items : List PValue)
  | PDict (fields : List (String × PValue))

abbrev PObj := List (String × PValue)

open PValue

/-- A single pydantic validation error: location path, human message,
violation-kind tag. -/
structure VErr where
  path : List String
  msg : String
  kind : String
deriving DecidableEq, Repr

abbrev VRes (α : Type) := Except (List VErr) α

/-! ## XML element trees -/

inductive Elem where
  | mk (tag : String) (attribs : List (String × String)) (text : String)
      (children : List Elem)

def Elem.tag : Elem → String
  | .mk t _ _ _ => t

def Elem.attribs : Elem → List (String × String)
  | .mk _ a _ _ => a

def Elem.text : Elem → String
  | .mk _ _ t _ => t

def Elem.children : Elem → List Elem
  | .mk _ _ _ c => c

/-- Association lookup among string attributes (attribute names are unique). -/
def lookupStr : List (String × String) → String → Option String
  | [], _ => none
  | (k', v) :: rest, k => if k' = k then some v else lookupStr rest k

/-- `element.attrib.get(k)` / `k in element.attrib`. -/
def Elem.getAttr (e : Elem) (k : String) : Option String :=
  lookupStr e.attribs k

/-- Association lookup in a plain-data dict. -/
def getKey : PObj → String → Option PValue
  | [], _ => none
  | (k', v) :: rest, k => if k' = k then some v else getKey rest k

/-! ## Python string primitives -/

/-- Whitespace for Python `str.strip()` (ASCII portion). -/
def pySpace (c : Char) : Bool :=
  c = ' ' || c = '\t' || c = '\n' || c = '\r' || c = '\x0b' || c = '\x0c'

def stripChars (l : List Char) : List Char :=
  ((l.dropWhile pySpace).reverse.dropWhile pySpace).reverse

/-- Python `str.strip()`. -/
def py_strip (s : String) : String := ⟨stripChars s.data⟩

/-- Python `str.lower()` (ASCII portion). -/
def py_lower (s : String) : String := ⟨s.data.map Char.toLower⟩

/-- Python `str.isalnum()` (ASCII portion): non-empty and all alphanumeric. -/
def py_isalnum (s : String) : Bool :=
  !s.data.isEmpty && s.data.all Char.isAlphanum

/-- Digit-sequence grammar of Python `int()` literals:
digits optionally grouped by single interior underscores.
`prev` records whether the previous character was an underscore. -/
def pyDigitsGo : Bool → List Char → Bool
  | prev, [] => !prev
  | prev, c :: r =>
      if c = '_' then !prev && pyDigitsGo true r
      else c.isDigit && pyDigitsGo false r

def pyDigits : List Char → Bool
  | [] => false
  | c :: r => c.isDigit && pyDigitsGo false r

def digitVal (c : Char) : Nat := c.toNat - 48

def digitsVal (l : List Char) : Nat :=
  l.foldl (fun a c => 10 * a + digitVal c) 0

def pyIntCore (cs : List Char) : Option Nat :=
  if pyDigits cs then some (digitsVal (cs.filter Char.isDigit)) else none

def parsePyIntChars : List Char → Option Int
  | [] => none
  | c :: rest =>
      if c = '-' then (pyIntCore rest).map (fun n => -(n : Int))
      else if c = '+' then (pyIntCore rest).map (fun n => (n : Int))
      else (pyIntCore (c :: rest)).map (fun n => (n : Int))

/-- Python `int(s)` on an already-stripped string (base 10). -/
def parse_py_int (s : String) : Option Int :=
  parsePyIntChars s.data

/-- Decimal digits of a natural number, fuel-structured so that it
reduces definitionally (fuel `n+1` always suffices). -/
def natDigitsAux : Nat → Nat → List Char
  | 0, _ => []
  | fuel + 1, n =>
      if n < 10 then [Nat.digitChar n]
      else natDigitsAux fuel (n / 10) ++ [Nat.digitChar (n % 10)]

/-- Python `str(n)` for a natural number. -/
def nat_str (n : Nat) : String := ⟨natDigitsAux (n + 1) n⟩

/-- Python `str(i)` for an integer. -/
def int_str (i : Int) : String :=
  if i < 0 then "-" ++ nat_str i.natAbs else nat_str i.natAbs

/-! ## Type vocabulary (`types.py`) -/

inductive ControlType where
  | standard | virtual
deriving DecidableEq, Repr

def ControlType.tok : ControlType → String
  | .standard => "standard"
  | .virtual => "virtual"

def ControlType.ofTok (s : String) : Option ControlType :=
  if s = "standard" then some .standard
  else if s = "virtual" then some .virtual
  else none

inductive DependencyType where
  | control
deriving DecidableEq, Repr

def DependencyType.tok : DependencyType → String
  | .control => "control"

def DependencyType.ofTok (s : String) : Option DependencyType :=
  if s = "control" then some .control else none

inductive DependencyLoadType where
  | onDemand
deriving DecidableEq, Repr

def DependencyLoadType.tok : DependencyLoadType → String
  | .onDemand => "onDemand"

def DependencyLoadType.ofTok (s : String) : Option DependencyLoadType :=
  if s = "onDemand" then some .onDemand else none

inductive PlatformActionType where
  | afterPageLoad
deriving DecidableEq, Repr

def PlatformActionType.tok : PlatformActionType → String
  | .afterPageLoad => "afterPageLoad"

def PlatformActionType.ofTok (s : String) : Option PlatformActionType :=
  if s = "afterPageLoad" then some .afterPageLoad else none

inductive PlatformLibraryName where
  | react | fluent
deriving DecidableEq, Repr

def PlatformLibraryName.tok : PlatformLibraryName → String
  | .react => "React"
  | .fluent => "Fluent"

def PlatformLibraryName.ofTok (s : String) : Option PlatformLibraryName :=
  if s = "React" then some .react
  else if s = "Fluent" then some .fluent
  else none

inductive PropertyUsage where
  | bound | input | output
deriving DecidableEq, Repr

def PropertyUsage.tok : PropertyUsage → String
  | .bound => "bound"
  | .input => "input"
  | .output => "output"

def PropertyUsage.ofTok (s : String) : Option PropertyUsage :=
  if s = "bound" then some .bound
  else if s = "input" then some .input
  else if s = "output" then some .output
  else none

inductive PropertySetUsage where
  | bound | input
deriving DecidableEq, Repr

def PropertySetUsage.tok : PropertySetUsage → String
  | .bound => "bound"
  | .input => "input"

def PropertySetUsage.ofTok (s : String) : Option PropertySetUsage :=
  if s = "bound" then some .bound
  else if s = "input" then some .input
  else none

inductive RequiredFor where
  | schema
deriving DecidableEq, Repr

def RequiredFor.tok : RequiredFor → String
  | .schema => "schema"

def RequiredFor.ofTok (s : String) : Option RequiredFor :=
  if s = "schema" then some .schema else none

inductive TypeValue where
  | currency | dateAndTime | dateOnly | decimal | enum | fp
  | lookupSimple | multiple | multiSelectOptionSet | object | optionSet
  | singleLineEmail | singleLinePhone | singleLineText | singleLineTextArea
  | singleLineTicker | singleLineUrl | twoOptions | wholeNone
deriving DecidableEq, Repr

def TypeValue.tok : TypeValue → String
  | .currency => "Currency"
  | .dateAndTime => "DateAndTime.DateAndTime"
  | .dateOnly => "DateAndTime.DateOnly"
  | .decimal => "Decimal"
  | .enum => "Enum"
  | .fp => "FP"
  | .lookupSimple => "Lookup.Simple"
  | .multiple => "Multiple"
  | .multiSelectOptionSet => "MultiSelectOptionSet"
  | .object => "Object"
  | .optionSet => "OptionSet"
  | .singleLineEmail => "SingleLine.Email"
  | .singleLinePhone => "SingleLine.Phone"
  | .singleLineText => "SingleLine.Text"
  | .singleLineTextArea => "SingleLine.TextArea"
  | .singleLineTicker => "SingleLine.Ticker"
  | .singleLineUrl => "SingleLine.URL"
  | .twoOptions => "TwoOptions"
  | .wholeNone => "Whole.None"

def TypeValue.ofTok (s : String) : Option TypeValue :=
  if s = "Currency" then some .currency
  else if s = "DateAndTime.DateAndTime" then some .dateAndTime
  else if s = "DateAndTime.DateOnly" then some .dateOnly
  else if s = "Decimal" then some .decimal
  else if s = "Enum" then some .enum
  else if s = "FP" then some .fp
  else if s = "Lookup.Simple" then some .lookupSimple
  else if s = "Multiple" then some .multiple
  else if s = "MultiSelectOptionSet" then some .multiSelectOptionSet
  else if s = "Object" then some .object
  else if s = "OptionSet" then some .optionSet
  else if s = "SingleLine.Email" then some .singleLineEmail
  else if s = "SingleLine.Phone" then some .singleLinePhone
  else if s = "SingleLine.Text" then some .singleLineText
  else if s = "SingleLine.TextArea" then some .singleLineTextArea
  else if s = "SingleLine.Ticker" then some .singleLineTicker
  else if s = "SingleLine.URL" then some .singleLineUrl
  else if s = "TwoOptions" then some .twoOptions
  else if s = "Whole.None" then some .wholeNone
  else none

/-- `UNSUPPORTED_TYPE_VALUES` from `types.py`. -/
def UNSUPPORTED_TYPE_VALUES : List String :=
  ["Lookup.Customer", "Lookup.Owner", "Lookup.PartyList", "Lookup.Regarding",
   "Status Reason", "Status", "Whole.Duration", "Whole.Language",
   "Whole.TimeZone"]

/-! ## Data model (`models.py`)

Field names follow the source; `namespace` is a Lean keyword, so
`Control.namespace` is rendered `nspace`. `NonEmptyStr` constraints and
the model/field validators are collected in the `validB` predicates. -/

structure EnumValue where
  name : String
  display_name_key : String
  value : Int
deriving DecidableEq, Repr

structure TypeElement where
  value : TypeValue
deriving DecidableEq, Repr

structure TypesElement where
  types : List TypeElement
deriving DecidableEq, Repr

structure TypeGroup where
  name : String
  types : List TypeElement
deriving DecidableEq, Repr

structure Code where
  path : String
  order : Nat
deriving DecidableEq, Repr

structure Css where
  path : String
  order : Option Nat
deriving DecidableEq, Repr

structure Img where
  path : String
deriving DecidableEq, Repr

structure Resx where
  path : String
  version : String
deriving DecidableEq, Repr

structure PlatformLibrary where
  name : PlatformLibraryName
  version : String
deriving DecidableEq, Repr

structure Dependency where
  type : DependencyType
  name : String
  order : Option Nat
  load_type : Option DependencyLoadType
deriving DecidableEq, Repr

structure Resources where
  code : Code
  css : List Css
  img : List Img
  resx : List Resx
  platform_library : List PlatformLibrary
  dependency : List Dependency
deriving DecidableEq, Repr

structure Domain where
  value : String
deriving DecidableEq, Repr

structure ExternalServiceUsage where
  enabled : Option Bool
  domain : List Domain
deriving DecidableEq, Repr

structure PlatformAction where
  action_type : Option PlatformActionType
deriving DecidableEq, Repr

structure PropertyDependency where
  input : String
  output : String
  required_for : RequiredFor
deriving DecidableEq, Repr

structure PropertyDependencies where
  property_dependency : List PropertyDependency
deriving DecidableEq, Repr

structure UsesFeature where
  name : String
  required : Bool
deriving DecidableEq, Repr

structure FeatureUsage where
  uses_feature : List UsesFeature
deriving DecidableEq, Repr

structure Event where
  name : String
  display_name_key : Option String
  description_key : Option String
  pfx_default_value : Option String
deriving DecidableEq, Repr

structure Property where
  name : String
  display_name_key : Option String
  description_key : Option String
  of_type : Option TypeValue
  of_type_group : Option String
  usage : Option PropertyUsage
  required : Option Bool
  default_value : Option String
  pfx_default_value : Option String
  types : Option TypesElement
  values : List EnumValue
deriving DecidableEq, Repr

structure PropertySet where
  name : String
  display_name_key : String
  description_key : Option String
  of_type : Option TypeValue
  of_type_group : Option String
  usage : Option PropertySetUsage
  required : Option Bool
  types : Option TypesElement
deriving DecidableEq, Repr

structure DataSet where
  name : String
  display_name_key : String
  description_key : Option String
  cds_data_set_options : Option String
  property_set : List PropertySet
deriving DecidableEq, Repr

structure Control where
  nspace : String
  constructor : String
  version : String
  display_name_key : String
  description_key : Option String
  control_type : Option ControlType
  preview_image : Option String
  property : List Property
  event : List Event
  data_set : List DataSet
  type_group : List TypeGroup
  property_dependencies : Option PropertyDependencies
  feature_usage : Option FeatureUsage
  external_service_usage : Option ExternalServiceUsage
  platform_action : Option PlatformAction
  resources : Resources
deriving DecidableEq, Repr

structure Manifest where
  control : Control
deriving DecidableEq, Repr

/-! ## Construct-time invariants

`X.validB` is true exactly when pydantic construction of `X` from these
field values succeeds: `NonEmptyStr` fields are non-empty, `PositiveInt`
fields are positive, and the source's `field_validator`/`model_validator`
checks hold. Enum-typed fields are valid by typing. -/

/-- Non-emptiness of an optional `NonEmptyStr` field. -/
def optNE (o : Option String) : Bool :=
  match o with
  | some s => !s.isEmpty
  | none => true

/-- Positivity of an optional `PositiveInt` field. -/
def optPos (o : Option Nat) : Bool :=
  match o with
  | some n => 0 < n
  | none => true

/-- Python truthiness of an optional string (`None` and `""` are falsy). -/
def pyTruthyStr (o : Option String) : Bool :=
  match o with
  | some s => !s.isEmpty
  | none => false

/-- Python truthiness of an optional enum value (enum members are truthy). -/
def pyTruthyOpt {α : Type} (o : Option α) : Bool := o.isSome

def EnumValue.validB (x : EnumValue) : Bool :=
  !x.name.isEmpty && !x.display_name_key.isEmpty

def TypeElement.validB (_ : TypeElement) : Bool := true

def TypesElement.validB (x : TypesElement) : Bool := !x.types.isEmpty

def TypeGroup.validB (x : TypeGroup) : Bool :=
  !x.name.isEmpty && !x.types.isEmpty

def Code.validB (x : Code) : Bool := !x.path.isEmpty && 0 < x.order

def Css.validB (x : Css) : Bool := !x.path.isEmpty && optPos x.order

def Img.validB (x : Img) : Bool := !x.path.isEmpty

def Resx.validB (x : Resx) : Bool := !x.path.isEmpty && !x.version.isEmpty

def PlatformLibrary.validB (x : PlatformLibrary) : Bool := !x.version.isEmpty

def Dependency.validB (x : Dependency) : Bool :=
  !x.name.isEmpty && optPos x.order

def Resources.validB (x : Resources) : Bool :=
  x.code.validB && x.css.all Css.validB && x.img.all Img.validB &&
  x.resx.all Resx.validB && x.platform_library.all PlatformLibrary.validB &&
  x.dependency.all Dependency.validB

def Domain.validB (x : Domain) : Bool := !x.value.isEmpty

def ExternalServiceUsage.validB (x : ExternalServiceUsage) : Bool :=
  (!(x.enabled.getD false) || !x.domain.isEmpty) && x.domain.all Domain.validB

def PlatformAction.validB (_ : PlatformAction) : Bool := true

def PropertyDependency.validB (x : PropertyDependency) : Bool :=
  !x.input.isEmpty && !x.output.isEmpty

def PropertyDependencies.validB (x : PropertyDependencies) : Bool :=
  !x.property_dependency.isEmpty &&
  x.property_dependency.all PropertyDependency.validB

def UsesFeature.validB (x : UsesFeature) : Bool := !x.name.isEmpty

def FeatureUsage.validB (x : FeatureUsage) : Bool :=
  !x.uses_feature.isEmpty && x.uses_feature.all UsesFeature.validB

def Event.validB (x : Event) : Bool :=
  !x.name.isEmpty && optNE x.display_name_key && optNE x.description_key &&
  optNE x.pfx_default_value

def Property.validB (x : Property) : Bool :=
  !x.name.isEmpty && optNE x.display_name_key && optNE x.description_key &&
  optNE x.of_type_group && optNE x.default_value &&
  optNE x.pfx_default_value &&
  (pyTruthyOpt x.of_type || pyTruthyStr x.of_type_group) &&
  (!(x.of_type = some TypeValue.enum : Bool) || !x.values.isEmpty) &&
  (x.types.all TypesElement.validB) && x.values.all EnumValue.validB

def PropertySet.validB (x : PropertySet) : Bool :=
  !x.name.isEmpty && !x.display_name_key.isEmpty && optNE x.description_key &&
  optNE x.of_type_group &&
  (pyTruthyOpt x.of_type || pyTruthyStr x.of_type_group) &&
  (x.types.all TypesElement.validB)

def DataSet.validB (x : DataSet) : Bool :=
  !x.name.isEmpty && !x.display_name_key.isEmpty && optNE x.description_key &&
  optNE x.cds_data_set_options && x.property_set.all PropertySet.validB

def Control.validB (x : Control) : Bool :=
  py_isalnum x.nspace && py_isalnum x.constructor && !x.version.isEmpty &&
  !x.display_name_key.isEmpty && optNE x.description_key &&
  optNE x.preview_image && x.property.all Property.validB &&
  x.event.all Event.validB && x.data_set.all DataSet.validB &&
  x.type_group.all TypeGroup.validB &&
  (x.property_dependencies.all PropertyDependencies.validB) &&
  (x.feature_usage.all FeatureUsage.validB) &&
  (x.external_service_usage.all ExternalServiceUsage.validB) &&
  x.resources.validB

def Manifest.validB (m : Manifest) : Bool := m.control.validB

/-! ## XML serializer (`xml.py`, `ManifestXmlSerializer`)

`_ordered_attribs` filters out `None` and `""` values, keeping the fixed
per-entity order; `_bool_value` renders the lowercase tokens. -/

/-- `ManifestXmlSerializer._ordered_attribs`. -/
def ordered_attribs (pairs : List (String × Option String)) :
    List (String × String) :=
  pairs.filterMap fun kv =>
    match kv.2 with
    | none => none
    | some v => if v = "" then none else some (kv.1, v)

/-- `ManifestXmlSerializer._bool_value`. -/
def bool_value (b : Option Bool) : Option String :=
  b.map (fun x => if x then "true" else "false")

/-- Children contributed by an optional sub-entity. -/
def optElems {α : Type} (o : Option α) (f : α → Elem) : List Elem :=
  match o with
  | some x => [f x]
  | none => []

def type_element (t : TypeElement) : Elem :=
  .mk "type" [] t.value.tok []

def types_to_element (t : TypesElement) : Elem :=
  .mk "types" [] "" (t.types.map type_element)

def type_group_to_element (g : TypeGroup) : Elem :=
  .mk "type-group" (ordered_attribs [("name", some g.name)]) ""
    (g.types.map type_element)

def enum_value_to_element (v : EnumValue) : Elem :=
  .mk "value"
    (ordered_attribs
      [("name", some v.name), ("display-name-key", some v.display_name_key)])
    (int_str v.value) []

def property_to_element (p : Property) : Elem :=
  .mk "property"
    (ordered_attribs
      [("name", some p.name),
       ("display-name-key", p.display_name_key),
       ("description-key", p.description_key),
       ("of-type", p.of_type.map TypeValue.tok),
       ("of-type-group", p.of_type_group),
       ("usage", p.usage.map PropertyUsage.tok),
       ("required", bool_value p.required),
       ("default-value", p.default_value),
       ("pfx-default-value", p.pfx_default_value)])
    ""
    (optElems p.types types_to_element ++ p.values.map enum_value_to_element)

def event_to_element (e : Event) : Elem :=
  .mk "event"
    (ordered_attribs
      [("name", some e.name),
       ("pfx-default-value", e.pfx_default_value),
       ("display-name-key", e.display_name_key),
       ("description-key", e.description_key)])
    "" []

def property_set_to_element (p : PropertySet) : Elem :=
  .mk "property-set"
    (ordered_attribs
      [("name", some p.name),
       ("display-name-key", some p.display_name_key),
       ("description-key", p.description_key),
       ("of-type", p.of_type.map TypeValue.tok),
       ("of-type-group", p.of_type_group),
       ("usage", p.usage.map PropertySetUsage.tok),
       ("required", bool_value p.required)])
    ""
    (optElems p.types types_to_element)

def dataset_to_element (d : DataSet) : Elem :=
  .mk "data-set"
    (ordered_attribs
      [("name", some d.name),
       ("display-name-key", some d.display_name_key),
       ("description-key", d.description_key),
       ("cds-data-set-options", d.cds_data_set_options)])
    ""
    (d.property_set.map property_set_to_element)

def property_dependency_to_element (d : PropertyDependency) : Elem :=
  .mk "property-dependency"
    (ordered_attribs
      [("input", some d.input), ("output", some d.output),
       ("required-for", some d.required_for.tok)])
    "" []

def property_dependencies_to_element (d : PropertyDependencies) : Elem :=
  .mk "property-dependencies" [] ""
    (d.property_dependency.map property_dependency_to_element)

def uses_feature_to_element (f : UsesFeature) : Elem :=
  .mk "uses-feature"
    (ordered_attribs
      [("name", some f.name), ("required", bool_value (some f.required))])
    "" []

def feature_usage_to_element (f : FeatureUsage) : Elem :=
  .mk "feature-usage" [] "" (f.uses_feature.map uses_feature_to_element)

def domain_to_element (d : Domain) : Elem :=
  .mk "domain" [] d.value []

def external_service_usage_to_element (u : ExternalServiceUsage) : Elem :=
  .mk "external-service-usage"
    (ordered_attribs [("enabled", bool_value u.enabled)]) ""
    (u.domain.map domain_to_element)

def platform_action_to_element (a : PlatformAction) : Elem :=
  .mk "platform-action"
    (ordered_attribs
      [("action-type", a.action_type.map PlatformActionType.tok)])
    "" []

def code_to_element (c : Code) : Elem :=
  .mk "code"
    (ordered_attribs [("path", some c.path), ("order", some (nat_str c.order))])
    "" []

/-- `str(css.order) if css.order else None`: Python truthiness drops `0`. -/
def css_order_attr (o : Option Nat) : Option String :=
  match o with
  | some n => if n = 0 then none else some (nat_str n)
  | none => none

def css_to_element (c : Css) : Elem :=
  .mk "css"
    (ordered_attribs [("path", some c.path), ("order", css_order_attr c.order)])
    "" []

def img_to_element (i : Img) : Elem :=
  .mk "img" (ordered_attribs [("path", some i.path)]) "" []

def resx_to_element (r : Resx) : Elem :=
  .mk "resx"
    (ordered_attribs [("path", some r.path), ("version", some r.version)]) "" []

def platform_library_to_element (l : PlatformLibrary) : Elem :=
  .mk "platform-library"
    (ordered_attribs
      [("name", some l.name.tok), ("version", some l.version)])
    "" []

def dependency_to_element (d : Dependency) : Elem :=
  .mk "dependency"
    (ordered_attribs
      [("type", some d.type.tok), ("name", some d.name),
       ("order", css_order_attr d.order),
       ("load-type", d.load_type.map DependencyLoadType.tok)])
    "" []

def resources_to_element (r : Resources) : Elem :=
  .mk "resources" [] ""
    (code_to_element r.code ::
      (r.css.map css_to_element ++ r.resx.map resx_to_element ++
       r.img.map img_to_element ++
       r.platform_library.map platform_library_to_element ++
       r.dependency.map dependency_to_element))

def control_to_element (c : Control) : Elem :=
  .mk "control"
    (ordered_attribs
      [("namespace", some c.nspace),
       ("constructor", some c.constructor),
       ("version", some c.version),
       ("display-name-key", some c.display_name_key),
       ("description-key", c.description_key),
       ("control-type", c.control_type.map ControlType.tok),
       ("preview-image", c.preview_image)])
    ""
    (c.property.map property_to_element ++ c.event.map event_to_element ++
     c.data_set.map dataset_to_element ++
     c.type_group.map type_group_to_element ++
     optElems c.property_dependencies property_dependencies_to_element ++
     optElems c.feature_usage feature_usage_to_element ++
     optElems c.external_service_usage external_service_usage_to_element ++
     optElems c.platform_action platform_action_to_element ++
     [resources_to_element c.resources])

def manifest_to_element (m : Manifest) : Elem :=
  .mk "manifest" [] "" [control_to_element m.control]

/-! ## XML importer (`xml_import.py`) -/

/-- Characters after the first `'}'`, when one occurs. -/
def afterBrace : List Char → Option (List Char)
  | [] => none
  | '}' :: r => some r
  | _ :: r => afterBrace r

/-- `_strip_ns`: everything after the first `}` (i.e. Python
`tag.split("}", 1)[1]`) when the tag contains one, else the tag. -/
def strip_ns (tag : String) : String :=
  match afterBrace tag.data with
  | some r => ⟨r⟩
  | none => tag

/-- `_children`: direct children whose namespace-stripped tag matches. -/
def childrenTag (e : Elem) (t : String) : List Elem :=
  e.children.filter (fun c => strip_ns c.tag = t)

/-- `_first_child`. -/
def first_child (e : Elem) (t : String) : Option Elem :=
  e.children.find? (fun c => strip_ns c.tag = t)

/-- Dict fragment for a present optional value. -/
def entryOf (k : String) (o : Option PValue) : PObj :=
  match o with
  | some v => [(k, v)]
  | none => []

/-- `_set_attr`: keep the raw attribute string unless absent or empty. -/
def str_frag (e : Elem) (k : String) : PObj :=
  match e.getAttr k with
  | some v => if v = "" then [] else [(k, PStr v)]
  | none => []

/-- `_set_bool_attr`: keep only trimmed-lowercased `"true"`/`"false"`. -/
def bool_frag (e : Elem) (k : String) : PObj :=
  match e.getAttr k with
  | some v =>
      let w := py_lower (py_strip v)
      if w = "true" then [(k, PBool true)]
      else if w = "false" then [(k, PBool false)]
      else []
  | none => []

/-- `_set_int_attr`: parse as int, keep the stripped raw string on
failure, omit when stripped-empty. -/
def int_frag (e : Elem) (k : String) : PObj :=
  match e.getAttr k with
  | some v =>
      let raw := py_strip v
      if raw = "" then []
      else
        match parse_py_int raw with
        | some n => [(k, PInt n)]
        | none => [(k, PStr raw)]
  | none => []

/-- `_parse_value` (enum value element). -/
def parse_value (e : Elem) : PObj :=
  str_frag e "name" ++ str_frag e "display-name-key" ++
    (let text := py_strip e.text
     if text = "" then []
     else
       match parse_py_int text with
       | some n => [("value", PInt n)]
       | none => [("value", PStr text)])

/-- Shared `<type>` child walk of `_parse_types`/`_parse_type_group`. -/
def parse_type_children (e : Elem) : List PValue :=
  (childrenTag e "type").filterMap fun te =>
    let v := py_strip te.text
    if v = "" then none else some (PDict [("value", PStr v)])

/-- `_parse_types`. -/
def parse_types (e : Elem) : PObj :=
  [("type", PList (parse_type_children e))]

/-- `_parse_type_group`. -/
def parse_type_group (e : Elem) : PObj :=
  str_frag e "name" ++ [("type", PList (parse_type_children e))]

/-- `_parse_property`. -/
def parse_property (e : Elem) : PObj :=
  str_frag e "name" ++ str_frag e "display-name-key" ++
  str_frag e "description-key" ++ str_frag e "of-type" ++
  str_frag e "of-type-group" ++ str_frag e "usage" ++
  str_frag e "default-value" ++ str_frag e "pfx-default-value" ++
  bool_frag e "required" ++
  entryOf "types" ((first_child e "types").map (fun t => PDict (parse_types t))) ++
  (let values := (childrenTag e "value").map (fun v => PDict (parse_value v))
   if values.isEmpty then [] else [("value", PList values)])

/-- `_parse_event`. -/
def parse_event (e : Elem) : PObj :=
  str_frag e "name" ++ str_frag e "display-name-key" ++
  str_frag e "description-key" ++ str_frag e "pfx-default-value"

/-- `_parse_property_set`. -/
def parse_property_set (e : Elem) : PObj :=
  str_frag e "name" ++ str_frag e "display-name-key" ++
  str_frag e "description-key" ++ str_frag e "of-type" ++
  str_frag e "of-type-group" ++ str_frag e "usage" ++
  bool_frag e "required" ++
  entryOf "types" ((first_child e "types").map (fun t => PDict (parse_types t)))

/-- `_parse_dataset`. -/
def parse_dataset (e : Elem) : PObj :=
  str_frag e "name" ++ str_frag e "display-name-key" ++
  str_frag e "description-key" ++ str_frag e "cds-data-set-options" ++
  [("property-set",
    PList ((childrenTag e "property-set").map (fun p => PDict (parse_property_set p))))]

/-- `_parse_property_dependencies`. -/
def parse_property_dependencies (e : Elem) : PObj :=
  [("property-dependency",
    PList ((childrenTag e "property-dependency").map fun d =>
      PDict (str_frag d "input" ++ str_frag d "output" ++
             str_frag d "required-for")))]

/-- `_parse_feature_usage`. -/
def parse_feature_usage (e : Elem) : PObj :=
  [("uses-feature",
    PList ((childrenTag e "uses-feature").map fun u =>
      PDict (str_frag u "name" ++ bool_frag u "required")))]

/-- `_parse_external_service_usage`. -/
def parse_external_service_usage (e : Elem) : PObj :=
  bool_frag e "enabled" ++
  (let domains := (childrenTag e "domain").filterMap fun d =>
      let text := py_strip d.text
      if text = "" then none else some (PDict [("value", PStr text)])
   if domains.isEmpty then [] else [("domain", PList domains)])

/-- `_parse_platform_action`. -/
def parse_platform_action (e : Elem) : PObj :=
  str_frag e "action-type"

/-- `_parse_code`. -/
def parse_code (e : Elem) : PObj :=
  str_frag e "path" ++ int_frag e "order"

/-- `_parse_css`. -/
def parse_css (e : Elem) : PObj :=
  str_frag e "path" ++ int_frag e "order"

/-- `_parse_img`. -/
def parse_img (e : Elem) : PObj :=
  str_frag e "path"

/-- `_parse_resx`. -/
def parse_resx (e : Elem) : PObj :=
  str_frag e "path" ++ str_frag e "version"

/-- `_parse_platform_library`. -/
def parse_platform_library (e : Elem) : PObj :=
  str_frag e "name" ++ str_frag e "version"

/-- `_parse_dependency`. -/
def parse_dependency (e : Elem) : PObj :=
  str_frag e "type" ++ str_frag e "name" ++ int_frag e "order" ++
  str_frag e "load-type"

/-- `_parse_resources`. -/
def parse_resources (e : Elem) : PObj :=
  entryOf "code" ((first_child e "code").map (fun c => PDict (parse_code c))) ++
  [("css", PList ((childrenTag e "css").map (fun c => PDict (parse_css c)))),
   ("img", PList ((childrenTag e "img").map (fun c => PDict (parse_img c)))),
   ("resx", PList ((childrenTag e "resx").map (fun c => PDict (parse_resx c)))),
   ("platform-library",
    PList ((childrenTag e "platform-library").map
      (fun c => PDict (parse_platform_library c)))),
   ("dependency",
    PList ((childrenTag e "dependency").map
      (fun c => PDict (parse_dependency c))))]

/-- `_parse_control`. -/
def parse_control (e : Elem) : PObj :=
  str_frag e "namespace" ++ str_frag e "constructor" ++
  str_frag e "version" ++ str_frag e "display-name-key" ++
  str_frag e "description-key" ++ str_frag e "control-type" ++
  str_frag e "preview-image" ++
  [("property",
    PList ((childrenTag e "property").map (fun p => PDict (parse_property p)))),
   ("event",
    PList ((childrenTag e "event").map (fun p => PDict (parse_event p)))),
   ("data-set",
    PList ((childrenTag e "data-set").map (fun p => PDict (parse_dataset p)))),
   ("type-group",
    PList ((childrenTag e "type-group").map
      (fun p => PDict (parse_type_group p))))] ++
  entryOf "property-dependencies"
    ((first_child e "property-dependencies").map
      (fun p => PDict (parse_property_dependencies p))) ++
  entryOf "feature-usage"
    ((first_child e "feature-usage").map
      (fun p => PDict (parse_feature_usage p))) ++
  entryOf "external-service-usage"
    ((first_child e "external-service-usage").map
      (fun p => PDict (parse_external_service_usage p))) ++
  entryOf "platform-action"
    ((first_child e "platform-action").map
      (fun p => PDict (parse_platform_action p))) ++
  entryOf "resources"
    ((first_child e "resources").map (fun p => PDict (parse_resources p)))

/-- `parse_manifest_xml_element`: root-tag and `<control>` checks are the
only fatal (`ValueError`) conditions; everything else is partial data. -/
def parse_manifest_xml_element (root : Elem) : Except String PObj :=
  if strip_ns root.tag ≠ "manifest" then
    .error "Root element must be <manifest>."
  else
    match first_child root "control" with
    | none => .error "Manifest must contain a <control> element."
    | some control_el => .ok [("control", PDict (parse_control control_el))]

/-! ## Validating construction (pydantic v2 semantics for `models.py`)

Field values may be supplied under the wire alias or the field name
(`populate_by_name=True`, alias looked up first); unknown keys are
rejected (`extra="forbid"`); all field errors are collected and reported
together; an `@model_validator(mode="after")` runs only when every field
validated and contributes at most its first raised error. -/

/-- Error accumulation: applicative combination of field results. -/
def va {α β : Type} : VRes (α → β) → VRes α → VRes β
  | .ok f, .ok a => .ok (f a)
  | .ok _, .error e => .error e
  | .error e, .ok _ => .error e
  | .error e, .error f => .error (e ++ f)

def pathCons (k : String) (e : VErr) : VErr :=
  { e with path := k :: e.path }

def vErr1 (path : List String) (msg kind : String) : List VErr :=
  [⟨path, msg, kind⟩]

/-- Alias-then-name lookup (`populate_by_name`). -/
def getKeyA (d : PObj) (al nm : String) : Option PValue :=
  match getKey d al with
  | some v => some v
  | none => getKey d nm

/-- Required `NonEmptyStr` field. -/
def v_req_str_val (al : String) : Option PValue → VRes String
  | none => .error (vErr1 [al] "Field required" "missing")
  | some (PStr s) =>
      if s = "" then
        .error (vErr1 [al] "String should have at least 1 character"
          "string_too_short")
      else .ok s
  | some _ => .error (vErr1 [al] "Input should be a valid string" "string_type")

def v_req_str (d : PObj) (al nm : String) : VRes String :=
  v_req_str_val al (getKeyA d al nm)

/-- Optional `NonEmptyStr` field. -/
def v_opt_str_val (al : String) : Option PValue → VRes (Option String)
  | none => .ok none
  | some (PStr s) =>
      if s = "" then
        .error (vErr1 [al] "String should have at least 1 character"
          "string_too_short")
      else .ok (some s)
  | some _ => .error (vErr1 [al] "Input should be a valid string" "string_type")

def v_opt_str (d : PObj) (al nm : String) : VRes (Option String) :=
  v_opt_str_val al (getKeyA d al nm)

/-- `Control`'s `namespace`/`constructor`: `NonEmptyStr` plus the
`_validate_alpha_num` field validator. -/
def v_req_alnum_str (d : PObj) (al nm : String) : VRes String :=
  match v_req_str d al nm with
  | .error e => .error e
  | .ok s =>
      if py_isalnum s then .ok s
      else .error (vErr1 [al]
        "Value error, Value must contain only letters or numbers" "value_error")

/-- Lax int coercion of a present value (pydantic v2). -/
def intOfPValue (v : PValue) : Option Int :=
  match v with
  | PInt n => some n
  | PStr s => parse_py_int (py_strip s)
  | _ => none

/-- Required `int` field. -/
def v_req_int_val (al : String) : Option PValue → VRes Int
  | none => .error (vErr1 [al] "Field required" "missing")
  | some v =>
      match intOfPValue v with
      | some n => .ok n
      | none =>
          .error (vErr1 [al] "Input should be a valid integer" "int_parsing")

def v_req_int (d : PObj) (al nm : String) : VRes Int :=
  v_req_int_val al (getKeyA d al nm)

/-- Required `PositiveInt` field. -/
def v_req_posint (d : PObj) (al nm : String) : VRes Nat :=
  match v_req_int d al nm with
  | .error e => .error e
  | .ok n =>
      if 0 < n then .ok n.toNat
      else .error (vErr1 [al] "Input should be greater than 0" "greater_than")

/-- Optional `PositiveInt` field. -/
def v_opt_posint_val (al : String) : Option PValue → VRes (Option Nat)
  | none => .ok none
  | some v =>
      match intOfPValue v with
      | some n =>
          if 0 < n then .ok (some n.toNat)
          else .error (vErr1 [al] "Input should be greater than 0" "greater_than")
      | none =>
          .error (vErr1 [al] "Input should be a valid integer" "int_parsing")

def v_opt_posint (d : PObj) (al nm : String) : VRes (Option Nat) :=
  v_opt_posint_val al (getKeyA d al nm)

/-- Lax bool coercion of a present value (pydantic v2). -/
def boolOfPValue (v : PValue) : Option Bool :=
  match v with
  | PBool b => some b
  | PStr s =>
      let w := py_lower s
      if w ∈ ["true", "t", "yes", "y", "on", "1"] then some true
      else if w ∈ ["false", "f", "no", "n", "off", "0"] then some false
      else none
  | PInt 0 => some false
  | PInt 1 => some true
  | _ => none

/-- Required `bool` field. -/
def v_req_bool_val (al : String) : Option PValue → VRes Bool
  | none => .error (vErr1 [al] "Field required" "missing")
  | some v =>
      match boolOfPValue v with
      | some b => .ok b
      | none =>
          .error (vErr1 [al] "Input should be a valid boolean" "bool_parsing")

def v_req_bool (d : PObj) (al nm : String) : VRes Bool :=
  v_req_bool_val al (getKeyA d al nm)

/-- Optional `bool` field. -/
def v_opt_bool_val (al : String) : Option PValue → VRes (Option Bool)
  | none => .ok none
  | some v =>
      match boolOfPValue v with
      | some b => .ok (some b)
      | none =>
          .error (vErr1 [al] "Input should be a valid boolean" "bool_parsing")

def v_opt_bool (d : PObj) (al nm : String) : VRes (Option Bool) :=
  v_opt_bool_val al (getKeyA d al nm)

/-- Required enum-valued field (str-enums accept their value token). -/
def v_req_enum_val {α : Type} (ofTok : String → Option α) (desc : String)
    (al : String) : Option PValue → VRes α
  | none => .error (vErr1 [al] "Field required" "missing")
  | some (PStr s) =>
      match ofTok s with
      | some t => .ok t
      | none => .error (vErr1 [al] ("Input should be " ++ desc) "enum")
  | some _ => .error (vErr1 [al] ("Input should be " ++ desc) "enum")

def v_req_enum {α : Type} (ofTok : String → Option α) (desc : String)
    (d : PObj) (al nm : String) : VRes α :=
  v_req_enum_val ofTok desc al (getKeyA d al nm)

/-- Optional enum-valued field. -/
def v_opt_enum_val {α : Type} (ofTok : String → Option α) (desc : String)
    (al : String) : Option PValue → VRes (Option α)
  | none => .ok none
  | some (PStr s) =>
      match ofTok s with
      | some t => .ok (some t)
      | none => .error (vErr1 [al] ("Input should be " ++ desc) "enum")
  | some _ => .error (vErr1 [al] ("Input should be " ++ desc) "enum")

def v_opt_enum {α : Type} (ofTok : String → Option α) (desc : String)
    (d : PObj) (al nm : String) : VRes (Option α) :=
  v_opt_enum_val ofTok desc al (getKeyA d al nm)

/-- The `of-type` field of `Property`/`PropertySet`: the `TypeValue` enum
coercion followed by the `_validate_supported_type` field validator
(the `UNSUPPORTED_TYPE_VALUES` denylist check). -/
def v_of_type (d : PObj) (al nm : String) : VRes (Option TypeValue) :=
  match v_opt_enum TypeValue.ofTok "a valid TypeValue" d al nm with
  | .error e => .error e
  | .ok none => .ok none
  | .ok (some t) =>
      if UNSUPPORTED_TYPE_VALUES.contains t.tok then
        .error (vErr1 [al] ("Value error, Unsupported of-type value: " ++ t.tok)
          "value_error")
      else .ok (some t)

/-- Validate each list item, prefixing errors with the item index;
all items' errors are collected. -/
def v_items {α : Type} (f : PValue → VRes α) : Nat → List PValue → VRes (List α)
  | _, [] => .ok []
  | i, v :: rest =>
      va (va (.ok List.cons)
        ((f v).mapError (List.map (pathCons (nat_str i)))))
        (v_items f (i + 1) rest)

/-- Validate a sub-model value, which must be a dict. -/
def v_model {α : Type} (f : PObj → VRes α) (v : PValue) : VRes α :=
  match v with
  | PDict o => f o
  | _ => .error (vErr1 [] "Input should be a valid dictionary or instance"
      "model_type")

/-- Required nested-model field. -/
def v_req_obj_val {α : Type} (f : PObj → VRes α) (al : String) :
    Option PValue → VRes α
  | none => .error (vErr1 [al] "Field required" "missing")
  | some v => (v_model f v).mapError (List.map (pathCons al))

def v_req_obj {α : Type} (f : PObj → VRes α) (d : PObj) (al nm : String) :
    VRes α :=
  v_req_obj_val f al (getKeyA d al nm)

/-- Optional nested-model field. -/
def v_opt_obj_val {α : Type} (f : PObj → VRes α) (al : String) :
    Option PValue → VRes (Option α)
  | none => .ok none
  | some v =>
      match (v_model f v).mapError (List.map (pathCons al)) with
      | .ok x => .ok (some x)
      | .error e => .error e

def v_opt_obj {α : Type} (f : PObj → VRes α) (d : PObj) (al nm : String) :
    VRes (Option α) :=
  v_opt_obj_val f al (getKeyA d al nm)

/-- List-of-models field (defaults to `[]` when absent). -/
def v_list_obj_val {α : Type} (f : PObj → VRes α) (al : String) :
    Option PValue → VRes (List α)
  | none => .ok []
  | some (PList vs) =>
      (v_items (v_model f) 0 vs).mapError (List.map (pathCons al))
  | some _ => .error (vErr1 [al] "Input should be a valid list" "list_type")

def v_list_obj {α : Type} (f : PObj → VRes α) (d : PObj) (al nm : String) :
    VRes (List α) :=
  v_list_obj_val f al (getKeyA d al nm)

/-- `extra="forbid"`: reject unknown keys. -/
def v_extra (d : PObj) (allowed : List String) : VRes Unit :=
  match d.filter (fun kv => !(allowed.contains kv.1)) with
  | [] => .ok ()
  | bad =>
      .error (bad.map fun kv =>
        ⟨[kv.1], "Extra inputs are not permitted", "extra_forbidden"⟩)

/-- Run an `@model_validator(mode="after")` (at most one error, at the
model's root location). -/
def v_after {α : Type} (cross : α → Option VErr) (r : VRes α) : VRes α :=
  match r with
  | .error e => .error e
  | .ok x =>
      match cross x with
      | some err => .error [err]
      | none => .ok x

def validate_enum_value (d : PObj) : VRes EnumValue :=
  va (va (va (va (.ok (fun n dnk v _ => EnumValue.mk n dnk v))
    (v_req_str d "name" "name"))
    (v_req_str d "display-name-key" "display_name_key"))
    (v_req_int d "value" "value"))
    (v_extra d ["name", "display-name-key", "display_name_key", "value"])

def validate_type_element (d : PObj) : VRes TypeElement :=
  va (va (.ok (fun v _ => TypeElement.mk v))
    (v_req_enum TypeValue.ofTok "a valid TypeValue" d "value" "value"))
    (v_extra d ["value"])

/-- `TypesElement._ensure_not_empty`. -/
def types_cross (t : TypesElement) : Option VErr :=
  if t.types.isEmpty then
    some ⟨[], "Value error, types must include at least one type", "value_error"⟩
  else none

def validate_types_element (d : PObj) : VRes TypesElement :=
  v_after types_cross
    (va (va (.ok (fun v _ => TypesElement.mk v))
      (v_list_obj validate_type_element d "type" "types"))
      (v_extra d ["type", "types"]))

/-- `TypeGroup._ensure_types`. -/
def type_group_cross (t : TypeGroup) : Option VErr :=
  if t.types.isEmpty then
    some ⟨[], "Value error, type-group must include at least one type",
      "value_error"⟩
  else none

def validate_type_group (d : PObj) : VRes TypeGroup :=
  v_after type_group_cross
    (va (va (va (.ok (fun n v _ => TypeGroup.mk n v))
      (v_req_str d "name" "name"))
      (v_list_obj validate_type_element d "type" "types"))
      (v_extra d ["name", "type", "types"]))

def validate_code (d : PObj) : VRes Code :=
  va (va (va (.ok (fun p o _ => Code.mk p o))
    (v_req_str d "path" "path"))
    (v_req_posint d "order" "order"))
    (v_extra d ["path", "order"])

def validate_css (d : PObj) : VRes Css :=
  va (va (va (.ok (fun p o _ => Css.mk p o))
    (v_req_str d "path" "path"))
    (v_opt_posint d "order" "order"))
    (v_extra d ["path", "order"])

def validate_img (d : PObj) : VRes Img :=
  va (va (.ok (fun p _ => Img.mk p))
    (v_req_str d "path" "path"))
    (v_extra d ["path"])

def validate_resx (d : PObj) : VRes Resx :=
  va (va (va (.ok (fun p v _ => Resx.mk p v))
    (v_req_str d "path" "path"))
    (v_req_str d "version" "version"))
    (v_extra d ["path", "version"])

def validate_platform_library (d : PObj) : VRes PlatformLibrary :=
  va (va (va (.ok (fun n v _ => PlatformLibrary.mk n v))
    (v_req_enum PlatformLibraryName.ofTok "a valid PlatformLibraryName" d
      "name" "name"))
    (v_req_str d "version" "version"))
    (v_extra d ["name", "version"])

def validate_dependency (d : PObj) : VRes Dependency :=
  va (va (va (va (va (.ok (fun t n o lt _ => Dependency.mk t n o lt))
    (v_req_enum DependencyType.ofTok "a valid DependencyType" d "type" "type"))
    (v_req_str d "name" "name"))
    (v_opt_posint d "order" "order"))
    (v_opt_enum DependencyLoadType.ofTok "a valid DependencyLoadType" d
      "load-type" "load_type"))
    (v_extra d ["type", "name", "order", "load-type", "load_type"])

def validate_resources (d : PObj) : VRes Resources :=
  va (va (va (va (va (va (va
    (.ok (fun c cs im rx pl dep _ => Resources.mk c cs im rx pl dep))
    (v_req_obj validate_code d "code" "code"))
    (v_list_obj validate_css d "css" "css"))
    (v_list_obj validate_img d "img" "img"))
    (v_list_obj validate_resx d "resx" "resx"))
    (v_list_obj validate_platform_library d "platform-library"
      "platform_library"))
    (v_list_obj validate_dependency d "dependency" "dependency"))
    (v_extra d ["code", "css", "img", "resx", "platform-library",
      "platform_library", "dependency"])

def validate_domain (d : PObj) : VRes Domain :=
  va (va (.ok (fun v _ => Domain.mk v))
    (v_req_str d "value" "value"))
    (v_extra d ["value"])

/-- `ExternalServiceUsage._enabled_requires_domains`. -/
def external_service_usage_cross (u : ExternalServiceUsage) : Option VErr :=
  if u.enabled.getD false && u.domain.isEmpty then
    some ⟨[], "Value error, enabled external-service-usage requires at least one domain",
      "value_error"⟩
  else none

def validate_external_service_usage (d : PObj) : VRes ExternalServiceUsage :=
  v_after external_service_usage_cross
    (va (va (va (.ok (fun e dom _ => ExternalServiceUsage.mk e dom))
      (v_opt_bool d "enabled" "enabled"))
      (v_list_obj validate_domain d "domain" "domain"))
      (v_extra d ["enabled", "domain"]))

def validate_platform_action (d : PObj) : VRes PlatformAction :=
  va (va (.ok (fun a _ => PlatformAction.mk a))
    (v_opt_enum PlatformActionType.ofTok "a valid PlatformActionType" d
      "action-type" "action_type"))
    (v_extra d ["action-type", "action_type"])

def validate_property_dependency (d : PObj) : VRes PropertyDependency :=
  va (va (va (va (.ok (fun i o r _ => PropertyDependency.mk i o r))
    (v_req_str d "input" "input"))
    (v_req_str d "output" "output"))
    (v_req_enum RequiredFor.ofTok "a valid RequiredFor" d "required-for"
      "required_for"))
    (v_extra d ["input", "output", "required-for", "required_for"])

/-- `PropertyDependencies._ensure_dependencies`. -/
def property_dependencies_cross (p : PropertyDependencies) : Option VErr :=
  if p.property_dependency.isEmpty then
    some ⟨[], "Value error, property-dependencies must include at least one property-dependency",
      "value_error"⟩
  else none

def validate_property_dependencies (d : PObj) : VRes PropertyDependencies :=
  v_after property_dependencies_cross
    (va (va (.ok (fun l _ => PropertyDependencies.mk l))
      (v_list_obj validate_property_dependency d "property-dependency"
        "property_dependency"))
      (v_extra d ["property-dependency", "property_dependency"]))

def validate_uses_feature (d : PObj) : VRes UsesFeature :=
  va (va (va (.ok (fun n r _ => UsesFeature.mk n r))
    (v_req_str d "name" "name"))
    (v_req_bool d "required" "required"))
    (v_extra d ["name", "required"])

/-- `FeatureUsage._ensure_uses_feature`. -/
def feature_usage_cross (f : FeatureUsage) : Option VErr :=
  if f.uses_feature.isEmpty then
    some ⟨[], "Value error, feature-usage must include at least one uses-feature",
      "value_error"⟩
  else none

def validate_feature_usage (d : PObj) : VRes FeatureUsage :=
  v_after feature_usage_cross
    (va (va (.ok (fun l _ => FeatureUsage.mk l))
      (v_list_obj validate_uses_feature d "uses-feature" "uses_feature"))
      (v_extra d ["uses-feature", "uses_feature"]))

def validate_event (d : PObj) : VRes Event :=
  va (va (va (va (va (.ok (fun n dnk dk pfx _ => Event.mk n dnk dk pfx))
    (v_req_str d "name" "name"))
    (v_opt_str d "display-name-key" "display_name_key"))
    (v_opt_str d "description-key" "description_key"))
    (v_opt_str d "pfx-default-value" "pfx_default_value"))
    (v_extra d ["name", "display-name-key", "display_name_key",
      "description-key", "description_key", "pfx-default-value",
      "pfx_default_value"])

/-- `Property._validate_type_requirements` (one `ValueError` at a time:
the first failing check wins). -/
def property_cross (p : Property) : Option VErr :=
  if !(pyTruthyOpt p.of_type || pyTruthyStr p.of_type_group) then
    some ⟨[], "Value error, property requires of-type or of-type-group",
      "value_error"⟩
  else if p.of_type = some TypeValue.enum ∧ p.values.isEmpty then
    some ⟨[], "Value error, Enum properties require at least one value element",
      "value_error"⟩
  else none

def validate_property (d : PObj) : VRes Property :=
  v_after property_cross
    (va (va (va (va (va (va (va (va (va (va (va (va
      (.ok (fun n dnk dk ot otg us rq dv pfx ty vs _ =>
        Property.mk n dnk dk ot otg us rq dv pfx ty vs))
      (v_req_str d "name" "name"))
      (v_opt_str d "display-name-key" "display_name_key"))
      (v_opt_str d "description-key" "description_key"))
      (v_of_type d "of-type" "of_type"))
      (v_opt_str d "of-type-group" "of_type_group"))
      (v_opt_enum PropertyUsage.ofTok "a valid PropertyUsage" d "usage" "usage"))
      (v_opt_bool d "required" "required"))
      (v_opt_str d "default-value" "default_value"))
      (v_opt_str d "pfx-default-value" "pfx_default_value"))
      (v_opt_obj validate_types_element d "types" "types"))
      (v_list_obj validate_enum_value d "value" "values"))
      (v_extra d ["name", "display-name-key", "display_name_key",
        "description-key", "description_key", "of-type", "of_type",
        "of-type-group", "of_type_group", "usage", "required",
        "default-value", "default_value", "pfx-default-value",
        "pfx_default_value", "types", "value", "values"]))

/-- `PropertySet._validate_type_requirements`. -/
def property_set_cross (p : PropertySet) : Option VErr :=
  if !(pyTruthyOpt p.of_type || pyTruthyStr p.of_type_group) then
    some ⟨[], "Value error, property-set requires of-type or of-type-group",
      "value_error"⟩
  else none

def validate_property_set (d : PObj) : VRes PropertySet :=
  v_after property_set_cross
    (va (va (va (va (va (va (va (va (va
      (.ok (fun n dnk dk ot otg us rq ty _ =>
        PropertySet.mk n dnk dk ot otg us rq ty))
      (v_req_str d "name" "name"))
      (v_req_str d "display-name-key" "display_name_key"))
      (v_opt_str d "description-key" "description_key"))
      (v_of_type d "of-type" "of_type"))
      (v_opt_str d "of-type-group" "of_type_group"))
      (v_opt_enum PropertySetUsage.ofTok "a valid PropertySetUsage" d
        "usage" "usage"))
      (v_opt_bool d "required" "required"))
      (v_opt_obj validate_types_element d "types" "types"))
      (v_extra d ["name", "display-name-key", "display_name_key",
        "description-key", "description_key", "of-type", "of_type",
        "of-type-group", "of_type_group", "usage", "required", "types"]))

def validate_dataset (d : PObj) : VRes DataSet :=
  va (va (va (va (va (va
    (.ok (fun n dnk dk opts ps _ => DataSet.mk n dnk dk opts ps))
    (v_req_str d "name" "name"))
    (v_req_str d "display-name-key" "display_name_key"))
    (v_opt_str d "description-key" "description_key"))
    (v_opt_str d "cds-data-set-options" "cds_data_set_options"))
    (v_list_obj validate_property_set d "property-set" "property_set"))
    (v_extra d ["name", "display-name-key", "display_name_key",
      "description-key", "description_key", "cds-data-set-options",
      "cds_data_set_options", "property-set", "property_set"])

def validate_control (d : PObj) : VRes Control :=
  va (va (va (va (va (va (va (va (va (va (va (va (va (va (va (va (va
    (.ok (fun ns ctor ver dnk dk ct pv pr ev ds tg pd fu esu pa rs _ =>
      Control.mk ns ctor ver dnk dk ct pv pr ev ds tg pd fu esu pa rs))
    (v_req_alnum_str d "namespace" "namespace"))
    (v_req_alnum_str d "constructor" "constructor"))
    (v_req_str d "version" "version"))
    (v_req_str d "display-name-key" "display_name_key"))
    (v_opt_str d "description-key" "description_key"))
    (v_opt_enum ControlType.ofTok "a valid ControlType" d "control-type"
      "control_type"))
    (v_opt_str d "preview-image" "preview_image"))
    (v_list_obj validate_property d "property" "property"))
    (v_list_obj validate_event d "event" "event"))
    (v_list_obj validate_dataset d "data-set" "data_set"))
    (v_list_obj validate_type_group d "type-group" "type_group"))
    (v_opt_obj validate_property_dependencies d "property-dependencies"
      "property_dependencies"))
    (v_opt_obj validate_feature_usage d "feature-usage" "feature_usage"))
    (v_opt_obj validate_external_service_usage d "external-service-usage"
      "external_service_usage"))
    (v_opt_obj validate_platform_action d "platform-action" "platform_action"))
    (v_req_obj validate_resources d "resources" "resources"))
    (v_extra d ["namespace", "constructor", "version", "display-name-key",
      "display_name_key", "description-key", "description_key",
      "control-type", "control_type", "preview-image", "preview_image",
      "property", "event", "data-set", "data_set", "type-group", "type_group",
      "property-dependencies", "property_dependencies", "feature-usage",
      "feature_usage", "external-service-usage", "external_service_usage",
      "platform-action", "platform_action", "resources"])

def validate_manifest (d : PObj) : VRes Manifest :=
  va (va (.ok (fun c _ => Manifest.mk c))
    (v_req_obj validate_control d "control" "control"))
    (v_extra d ["control"])

/-- `validate(import_from_xml(serialize_to_xml(m)))` at tree level. -/
def round_trip (m : Manifest) : Option Manifest :=
  match parse_manifest_xml_element (manifest_to_element m) with
  | .error _ => none
  | .ok d =>
      match validate_manifest d with
      | .error _ => none
      | .ok m' => some m'

/-! ## Helper lemmas: Python string primitives -/

theorem dropWhile_eq_self_of {p : Char → Bool} {l : List Char}
    (h : ∀ c ∈ l, p c = false) : l.dropWhile p = l := by
  cases l with
  | nil => rfl
  | cons a r => simp [List.dropWhile_cons, h a (by simp)]

theorem stripChars_eq_self {l : List Char}
    (h : ∀ c ∈ l, pySpace c = false) : stripChars l = l := by
  unfold stripChars
  rw [dropWhile_eq_self_of h, dropWhile_eq_self_of, List.reverse_reverse]
  intro c hc
  exact h c (by simpa using hc)

theorem py_strip_eq_self {s : String}
    (h : ∀ c ∈ s.data, pySpace c = false) : py_strip s = s := by
  unfold py_strip
  rw [stripChars_eq_self h]

theorem digitChar_isDigit {k : Nat} (h : k < 10) :
    (Nat.digitChar k).isDigit = true := by
  interval_cases k <;> rfl

theorem digitChar_val {k : Nat} (h : k < 10) :
    digitVal (Nat.digitChar k) = k := by
  interval_cases k <;> rfl

theorem digit_not_space {c : Char} (h : c.isDigit = true) :
    pySpace c = false := by
  revert h
  unfold Char.isDigit pySpace
  intro h
  simp only [Bool.or_eq_false_iff]
  refine ⟨⟨⟨⟨⟨?_, ?_⟩, ?_⟩, ?_⟩, ?_⟩, ?_⟩ <;>
    · simp only [decide_eq_false_iff_not]
      intro hc
      subst hc
      simp_all

theorem digit_ne_underscore {c : Char} (h : c.isDigit = true) : ¬(c = '_') := by
  intro hc
  subst hc
  simp [Char.isDigit] at h

theorem digit_ne_minus {c : Char} (h : c.isDigit = true) : ¬(c = '-') := by
  intro hc
  subst hc
  simp [Char.isDigit] at h

theorem digit_ne_plus {c : Char} (h : c.isDigit = true) : ¬(c = '+') := by
  intro hc
  subst hc
  simp [Char.isDigit] at h

theorem natDigitsAux_spec :
    ∀ fuel n, n < fuel →
      natDigitsAux fuel n ≠ [] ∧
      (∀ c ∈ natDigitsAux fuel n, c.isDigit = true) ∧
      digitsVal (natDigitsAux fuel n) = n := by
  intro fuel
  induction fuel with
  | zero => intro n h; omega
  | succ f ih =>
      intro n h
      by_cases h10 : n < 10
      · refine ⟨by simp [natDigitsAux, h10], ?_, ?_⟩
        · intro c hc
          simp only [natDigitsAux, if_pos h10, List.mem_singleton] at hc
          subst hc
          exact digitChar_isDigit h10
        · simp [natDigitsAux, if_pos h10, digitsVal, digitChar_val h10]
      · have hdiv : n / 10 < f := by omega
        obtain ⟨h1, h2, h3⟩ := ih (n / 10) hdiv
        have hmod : n % 10 < 10 := by omega
        refine ⟨by simp [natDigitsAux, if_neg h10], ?_, ?_⟩
        · intro c hc
          simp only [natDigitsAux, if_neg h10, List.mem_append,
            List.mem_singleton] at hc
          rcases hc with hc | hc
          · exact h2 c hc
          · subst hc
            exact digitChar_isDigit hmod
        · simp only [natDigitsAux, if_neg h10, digitsVal, List.foldl_append]
          have : List.foldl (fun a c => 10 * a + digitVal c) 0
              (natDigitsAux f (n / 10)) = n / 10 := h3
          simp only [List.foldl_cons, List.foldl_nil, this,
            digitChar_val hmod]
          omega

theorem nat_str_spec (n : Nat) :
    (nat_str n).data ≠ [] ∧ (∀ c ∈ (nat_str n).data, c.isDigit = true) ∧
    digitsVal ((nat_str n).data) = n :=
  natDigitsAux_spec (n + 1) n (by omega)

theorem nat_str_ne_empty (n : Nat) : nat_str n ≠ "" := by
  intro h
  have := (nat_str_spec n).1
  rw [h] at this
  exact this rfl

theorem py_strip_nat_str (n : Nat) : py_strip (nat_str n) = nat_str n :=
  py_strip_eq_self (fun c hc => digit_not_space ((nat_str_spec n).2.1 c hc))

theorem pyDigitsGo_of_digits {l : List Char}
    (h : ∀ c ∈ l, c.isDigit = true) : pyDigitsGo false l = true := by
  induction l with
  | nil => rfl
  | cons c r ih =>
      have hc := h c (by simp)
      simp only [pyDigitsGo, if_neg (digit_ne_underscore hc), hc,
        Bool.true_and]
      exact ih (fun x hx => h x (by simp [hx]))

theorem pyDigits_of_digits {l : List Char} (hne : l ≠ [])
    (h : ∀ c ∈ l, c.isDigit = true) : pyDigits l = true := by
  cases l with
  | nil => exact absurd rfl hne
  | cons c r =>
      simp only [pyDigits, h c (by simp), Bool.true_and]
      exact pyDigitsGo_of_digits (fun x hx => h x (by simp [hx]))

theorem filter_digits_of_digits {l : List Char}
    (h : ∀ c ∈ l, c.isDigit = true) : l.filter Char.isDigit = l := by
  induction l with
  | nil => rfl
  | cons c r ih =>
      simp only [List.filter_cons, h c (by simp), if_pos]
      rw [ih (fun x hx => h x (by simp [hx]))]

theorem pyIntCore_digits {l : List Char} (hne : l ≠ [])
    (h : ∀ c ∈ l, c.isDigit = true) :
    pyIntCore l = some (digitsVal l) := by
  unfold pyIntCore
  rw [if_pos (pyDigits_of_digits hne h), filter_digits_of_digits h]

theorem parsePyIntChars_digits {l : List Char} (hne : l ≠ [])
    (h : ∀ c ∈ l, c.isDigit = true) :
    parsePyIntChars l = some ((digitsVal l : Nat) : Int) := by
  cases l with
  | nil => exact absurd rfl hne
  | cons c r =>
      have hc : c.isDigit = true := h c (by simp)
      simp only [parsePyIntChars, if_neg (digit_ne_minus hc),
        if_neg (digit_ne_plus hc)]
      rw [pyIntCore_digits (by simp) h]
      rfl

theorem parse_py_int_nat_str (n : Nat) :
    parse_py_int (nat_str n) = some (n : Int) := by
  obtain ⟨h1, h2, h3⟩ := nat_str_spec n
  unfold parse_py_int
  rw [parsePyIntChars_digits h1 h2, h3]

theorem int_str_data_nonneg {i : Int} (h : 0 ≤ i) :
    int_str i = nat_str i.natAbs := by
  unfold int_str
  rw [if_neg (by omega)]

theorem dash_append_data (s : String) :
    ("-" ++ s).data = '-' :: s.data := by
  rw [String.data_append]
  rfl

theorem parse_py_int_int_str (i : Int) :
    parse_py_int (int_str i) = some i := by
  by_cases h : i < 0
  · unfold int_str
    rw [if_pos h]
    obtain ⟨h1, h2, h3⟩ := nat_str_spec i.natAbs
    unfold parse_py_int
    rw [dash_append_data]
    simp only [parsePyIntChars, if_pos rfl]
    rw [pyIntCore_digits h1 h2, h3]
    have hv : -((i.natAbs : Nat) : Int) = i := by omega
    show some (-((i.natAbs : Nat) : Int)) = some i
    rw [hv]
  · rw [int_str_data_nonneg (by omega), parse_py_int_nat_str]
    congr 1
    omega

theorem py_strip_int_str (i : Int) : py_strip (int_str i) = int_str i := by
  apply py_strip_eq_self
  intro c hc
  by_cases h : i < 0
  · unfold int_str at hc
    rw [if_pos h, dash_append_data] at hc
    rcases List.mem_cons.mp hc with hc | hc
    · subst hc; rfl
    · exact digit_not_space ((nat_str_spec i.natAbs).2.1 c hc)
  · rw [int_str_data_nonneg (by omega)] at hc
    exact digit_not_space ((nat_str_spec i.natAbs).2.1 c hc)

theorem ne_empty_of_isEmpty_false {s : String} (h : s.isEmpty = false) :
    ¬(s = "") := by
  intro hs
  subst hs
  exact Bool.noConfusion ((rfl : ("" : String).isEmpty = true) ▸ h)

/-! ## Helper lemmas: serializer attribute lookup -/

/-- Lookup in the raw (pre-filter) attribute pair list. -/
def lookupOA : List (String × Option String) → String → Option (Option String)
  | [], _ => none
  | (k', v) :: rest, k => if k' = k then some v else lookupOA rest k

/-- The importer's view of an attribute that went through
`_ordered_attribs`: dropped when `None` or empty. -/
def empty_to_none (o : Option String) : Option String :=
  match o with
  | some s => if s = "" then none else some s
  | none => none

theorem lookupStr_not_mem {l : List (String × String)} {k : String}
    (h : k ∉ l.map Prod.fst) : lookupStr l k = none := by
  induction l with
  | nil => rfl
  | cons kv rest ih =>
      cases kv with
      | mk k' v =>
          simp only [List.map_cons, List.mem_cons] at h
          push_neg at h
          obtain ⟨h1, h2⟩ := h
          simp only [lookupStr, if_neg (fun hh : k' = k => h1 hh.symm)]
          exact ih h2

theorem keys_ordered_attribs_sub {pairs : List (String × Option String)}
    {k : String} (h : k ∈ (ordered_attribs pairs).map Prod.fst) :
    k ∈ pairs.map Prod.fst := by
  simp only [ordered_attribs, List.map_filterMap] at h
  rcases List.mem_filterMap.mp h with ⟨⟨k', v⟩, hmem, heq⟩
  cases v with
  | none => simp at heq
  | some s =>
      by_cases hs : s = "" <;> simp [hs] at heq
      subst heq
      exact List.mem_map_of_mem _ hmem

theorem lookupStr_ordered_attribs (pairs : List (String × Option String))
    (k : String) (h : (pairs.map Prod.fst).Nodup) :
    lookupStr (ordered_attribs pairs) k =
      empty_to_none ((lookupOA pairs k).join) := by
  induction pairs with
  | nil => rfl
  | cons kv rest ih =>
      cases kv with
      | mk k' v =>
          simp only [List.map_cons, List.nodup_cons] at h
          obtain ⟨hnot, hrest⟩ := h
          by_cases hk : k' = k
          · subst hk
            cases v with
            | none =>
                simp only [ordered_attribs, List.filterMap_cons]
                show lookupStr (ordered_attribs rest) k' = _
                rw [lookupStr_not_mem
                  (fun hmem => hnot (keys_ordered_attribs_sub hmem))]
                simp [lookupOA, empty_to_none]
            | some s =>
                by_cases hs : s = ""
                · subst hs
                  simp only [ordered_attribs, List.filterMap_cons]
                  show lookupStr (ordered_attribs rest) k' = _
                  rw [lookupStr_not_mem
                    (fun hmem => hnot (keys_ordered_attribs_sub hmem))]
                  simp [lookupOA, empty_to_none]
                · simp only [ordered_attribs, List.filterMap_cons]
                  simp only [if_neg hs]
                  show lookupStr ((k', s) :: _) k' = _
                  simp [lookupStr, lookupOA, empty_to_none, hs]
          · cases v with
            | none =>
                simp only [ordered_attribs, List.filterMap_cons]
                show lookupStr (ordered_attribs rest) k = _
                rw [ih hrest]
                simp [lookupOA, if_neg hk]
            | some s =>
                by_cases hs : s = ""
                · subst hs
                  simp only [ordered_attribs, List.filterMap_cons]
                  show lookupStr (ordered_attribs rest) k = _
                  rw [ih hrest]
                  simp [lookupOA, if_neg hk]
                · simp only [ordered_attribs, List.filterMap_cons, if_neg hs]
                  show lookupStr ((k', s) :: ordered_attribs rest) k = _
                  simp only [lookupStr, if_neg hk]
                  rw [ih hrest]
                  simp [lookupOA, if_neg hk]

theorem empty_to_none_of_ne {s : String} (h : ¬(s = "")) :
    empty_to_none (some s) = some s := by
  simp [empty_to_none, h]

theorem empty_to_none_optNE {o : Option String} (h : optNE o = true) :
    empty_to_none o = o := by
  cases o with
  | none => rfl
  | some s =>
      simp only [optNE] at h
      exact empty_to_none_of_ne (ne_empty_of_isEmpty_false (by simpa using h))

/-! ## Helper lemmas: importer dict lookup -/

theorem getKey_append (a b : PObj) (k : String) :
    getKey (a ++ b) k = (getKey a k).or (getKey b k) := by
  induction a with
  | nil => simp [getKey]
  | cons kv rest ih =>
      cases kv with
      | mk k' v =>
          by_cases hk : k' = k
          · subst hk
            simp [getKey]
          · simp [getKey, if_neg hk, ih]

theorem getKey_entryOf (k' k : String) (o : Option PValue) :
    getKey (entryOf k' o) k = if k' = k then o else none := by
  cases o with
  | none => simp [entryOf, getKey]
  | some v => simp [entryOf, getKey]

theorem str_frag_eq (e : Elem) (k : String) :
    str_frag e k = entryOf k ((empty_to_none (e.getAttr k)).map PValue.PStr) := by
  unfold str_frag
  cases h : e.getAttr k with
  | none => simp [empty_to_none, entryOf]
  | some v =>
      by_cases hv : v = "" <;> simp [empty_to_none, entryOf, hv]

/-- The lenient bool view of `_set_bool_attr`. -/
def pyBoolLex (v : String) : Option Bool :=
  let w := py_lower (py_strip v)
  if w = "true" then some true
  else if w = "false" then some false
  else none

theorem bool_frag_eq (e : Elem) (k : String) :
    bool_frag e k =
      entryOf k (((e.getAttr k).bind pyBoolLex).map PValue.PBool) := by
  unfold bool_frag pyBoolLex
  cases h : e.getAttr k with
  | none => simp [entryOf]
  | some v =>
      by_cases h1 : py_lower (py_strip v) = "true"
      · simp [h1, entryOf]
      · by_cases h2 : py_lower (py_strip v) = "false" <;>
          simp [h1, h2, entryOf]

/-- The lenient int view of `_set_int_attr`. -/
def pyIntLex (v : String) : Option PValue :=
  let raw := py_strip v
  if raw = "" then none
  else
    match parse_py_int raw with
    | some n => some (PValue.PInt n)
    | none => some (PValue.PStr raw)

theorem int_frag_eq (e : Elem) (k : String) :
    int_frag e k = entryOf k ((e.getAttr k).bind pyIntLex) := by
  unfold int_frag pyIntLex
  cases h : e.getAttr k with
  | none => simp [entryOf]
  | some v =>
      by_cases h1 : py_strip v = ""
      · simp [h1, entryOf]
      · cases h2 : parse_py_int (py_strip v) <;> simp [h1, h2, entryOf]

/-! ## Helper lemmas: validator field evaluation -/

theorem v_req_str_val_some {al s : String} (h : ¬(s = "")) :
    v_req_str_val al (some (PValue.PStr s)) = .ok s := by
  simp [v_req_str_val, h]

theorem v_opt_str_val_map {al : String} {o : Option String}
    (h : optNE o = true) :
    v_opt_str_val al (o.map PValue.PStr) = .ok o := by
  cases o with
  | none => rfl
  | some s =>
      simp only [optNE] at h
      simp [v_opt_str_val, ne_empty_of_isEmpty_false (by simpa using h)]

theorem v_opt_bool_val_map {al : String} {o : Option Bool} :
    v_opt_bool_val al (o.map PValue.PBool) = .ok o := by
  cases o <;> rfl

theorem v_opt_enum_val_map {α : Type} {ofTok : String → Option α}
    {tok : α → String} {desc al : String} {o : Option α}
    (h : ∀ t, ofTok (tok t) = some t) :
    v_opt_enum_val ofTok desc al ((o.map tok).map PValue.PStr) = .ok o := by
  cases o with
  | none => rfl
  | some t => simp [v_opt_enum_val, h t]

theorem v_opt_posint_val_map {al : String} {o : Option Nat}
    (h : optPos o = true) :
    v_opt_posint_val al (o.map (fun n => PValue.PInt (n : Int))) = .ok o := by
  cases o with
  | none => rfl
  | some n =>
      simp only [optPos, decide_eq_true_eq] at h
      simp [v_opt_posint_val, intOfPValue, h]

theorem getKeyA_or (d : PObj) (al nm : String) :
    getKeyA d al nm = (getKey d al).or (getKey d nm) := by
  unfold getKeyA
  cases getKey d al <;> rfl

theorem v_opt_posint_val_bind {al : String} {o : Option Nat}
    (h : optPos o = true) :
    v_opt_posint_val al (o.bind (fun n => some (PValue.PInt (n : Int)))) =
      .ok o := by
  cases o with
  | none => rfl
  | some n =>
      simp only [optPos, decide_eq_true_eq] at h
      simp [v_opt_posint_val, intOfPValue, h]

theorem v_opt_enum_val_comp {α : Type} {ofTok : String → Option α}
    {tok : α → String} {desc al : String} {o : Option α}
    (h : ∀ t, ofTok (tok t) = some t) :
    v_opt_enum_val ofTok desc al (o.map (PValue.PStr ∘ tok)) = .ok o := by
  cases o with
  | none => rfl
  | some t => simp [v_opt_enum_val, h t]

theorem v_items_map_ok {α : Type} (f : PValue → VRes α) (F : α → PValue)
    (xs : List α) (h : ∀ x ∈ xs, f (F x) = .ok x) :
    ∀ i, v_items f i (xs.map F) = .ok xs := by
  induction xs with
  | nil => intro i; rfl
  | cons x rest ih =>
      intro i
      simp only [List.map_cons, v_items, h x (by simp)]
      rw [ih (fun y hy => h y (by simp [hy])) (i + 1)]
      rfl

theorem v_extra_ok_of {d : PObj} {allowed : List String}
    (h : ∀ kv ∈ d, allowed.contains kv.1 = true) :
    v_extra d allowed = .ok () := by
  unfold v_extra
  have : d.filter (fun kv => !(allowed.contains kv.1)) = [] := by
    rw [List.filter_eq_nil_iff]
    intro kv hkv
    have := h kv hkv
    simp_all
  rw [this]

theorem filter_entryOf_false {p : String × PValue → Bool} {k : String}
    (o : Option PValue) (h : ∀ v, p (k, v) = false) :
    (entryOf k o).filter p = [] := by
  cases o with
  | none => rfl
  | some v => simp [entryOf, h v]

theorem mem_entryOf_key {k : String} {o : Option PValue}
    {kv : String × PValue} (h : kv ∈ entryOf k o) : kv.1 = k := by
  cases o with
  | none => simp [entryOf] at h
  | some v =>
      simp only [entryOf, List.mem_singleton] at h
      subst h
      rfl

/-! ## Helper lemmas: enum tokens -/

theorem controlType_ofTok_tok (t : ControlType) :
    ControlType.ofTok t.tok = some t := by cases t <;> rfl

theorem controlType_tok_ne (t : ControlType) : ¬(t.tok = "") := by
  cases t <;> decide

theorem dependencyType_ofTok_tok (t : DependencyType) :
    DependencyType.ofTok t.tok = some t := by cases t <;> rfl

theorem dependencyType_tok_ne (t : DependencyType) : ¬(t.tok = "") := by
  cases t <;> decide

theorem dependencyLoadType_ofTok_tok (t : DependencyLoadType) :
    DependencyLoadType.ofTok t.tok = some t := by cases t <;> rfl

theorem dependencyLoadType_tok_ne (t : DependencyLoadType) : ¬(t.tok = "") := by
  cases t <;> decide

theorem platformActionType_ofTok_tok (t : PlatformActionType) :
    PlatformActionType.ofTok t.tok = some t := by cases t <;> rfl

theorem platformActionType_tok_ne (t : PlatformActionType) : ¬(t.tok = "") := by
  cases t <;> decide

theorem platformLibraryName_ofTok_tok (t : PlatformLibraryName) :
    PlatformLibraryName.ofTok t.tok = some t := by cases t <;> rfl

theorem platformLibraryName_tok_ne (t : PlatformLibraryName) : ¬(t.tok = "") := by
  cases t <;> decide

theorem propertyUsage_ofTok_tok (t : PropertyUsage) :
    PropertyUsage.ofTok t.tok = some t := by cases t <;> rfl

theorem propertyUsage_tok_ne (t : PropertyUsage) : ¬(t.tok = "") := by
  cases t <;> decide

theorem propertySetUsage_ofTok_tok (t : PropertySetUsage) :
    PropertySetUsage.ofTok t.tok = some t := by cases t <;> rfl

theorem propertySetUsage_tok_ne (t : PropertySetUsage) : ¬(t.tok = "") := by
  cases t <;> decide

theorem requiredFor_ofTok_tok (t : RequiredFor) :
    RequiredFor.ofTok t.tok = some t := by cases t <;> rfl

theorem requiredFor_tok_ne (t : RequiredFor) : ¬(t.tok = "") := by
  cases t <;> decide

theorem typeValue_ofTok_tok (t : TypeValue) :
    TypeValue.ofTok t.tok = some t := by cases t <;> rfl

theorem typeValue_tok_ne (t : TypeValue) : ¬(t.tok = "") := by
  cases t <;> decide

theorem typeValue_tok_strip (t : TypeValue) :
    py_strip t.tok = t.tok := by cases t <;> rfl

/-- No `TypeValue` token is on the `UNSUPPORTED_TYPE_VALUES` denylist. -/
theorem typeValue_not_unsupported (t : TypeValue) :
    UNSUPPORTED_TYPE_VALUES.contains t.tok = false := by
  cases t <;> rfl

theorem v_of_type_val_map {al : String} {o : Option TypeValue} :
    v_opt_enum_val TypeValue.ofTok "a valid TypeValue" al
      ((o.map TypeValue.tok).map PValue.PStr) = .ok o := by
  exact v_opt_enum_val_map typeValue_ofTok_tok

/-- Serialized booleans parse back through the lenient bool view. -/
theorem pyBoolLex_bool_value (b : Bool) :
    pyBoolLex (if b then "true" else "false") = some b := by
  cases b <;> rfl

/-- Serialized positive ints parse back through the lenient int view. -/
theorem pyIntLex_nat_str (n : Nat) :
    pyIntLex (nat_str n) = some (PValue.PInt (n : Int)) := by
  unfold pyIntLex
  rw [py_strip_nat_str]
  simp only [if_neg (nat_str_ne_empty n)]
  rw [parse_py_int_nat_str]

/-! ## Round-trip lemmas, per entity -/

theorem getAttr_mk (tag : String) (pairs : List (String × Option String))
    (txt : String) (ch : List Elem) (k : String)
    (h : (pairs.map Prod.fst).Nodup) :
    (Elem.mk tag (ordered_attribs pairs) txt ch).getAttr k =
      empty_to_none ((lookupOA pairs k).join) :=
  lookupStr_ordered_attribs pairs k h

@[simp]
theorem Elem.tag_mk (a : String) (b : List (String × String)) (c : String)
    (d : List Elem) : (Elem.mk a b c d).tag = a := rfl

@[simp]
theorem Elem.attribs_mk (a : String) (b : List (String × String)) (c : String)
    (d : List Elem) : (Elem.mk a b c d).attribs = b := rfl

@[simp]
theorem Elem.text_mk (a : String) (b : List (String × String)) (c : String)
    (d : List Elem) : (Elem.mk a b c d).text = c := rfl

@[simp]
theorem Elem.children_mk (a : String) (b : List (String × String)) (c : String)
    (d : List Elem) : (Elem.mk a b c d).children = d := rfl

@[simp]
theorem childrenTag_mk (a : String) (b : List (String × String)) (c : String)
    (d : List Elem) (t : String) :
    childrenTag (Elem.mk a b c d) t = d.filter (fun x => strip_ns x.tag = t) :=
  rfl

@[simp]
theorem first_child_mk (a : String) (b : List (String × String)) (c : String)
    (d : List Elem) (t : String) :
    first_child (Elem.mk a b c d) t = d.find? (fun x => strip_ns x.tag = t) :=
  rfl

@[simp] theorem tag_type_element (x : TypeElement) :
    (type_element x).tag = "type" := rfl
@[simp] theorem tag_types_to_element (x : TypesElement) :
    (types_to_element x).tag = "types" := rfl
@[simp] theorem tag_type_group_to_element (x : TypeGroup) :
    (type_group_to_element x).tag = "type-group" := rfl
@[simp] theorem tag_enum_value_to_element (x : EnumValue) :
    (enum_value_to_element x).tag = "value" := rfl
@[simp] theorem tag_property_to_element (x : Property) :
    (property_to_element x).tag = "property" := rfl
@[simp] theorem tag_event_to_element (x : Event) :
    (event_to_element x).tag = "event" := rfl
@[simp] theorem tag_property_set_to_element (x : PropertySet) :
    (property_set_to_element x).tag = "property-set" := rfl
@[simp] theorem tag_dataset_to_element (x : DataSet) :
    (dataset_to_element x).tag = "data-set" := rfl
@[simp] theorem tag_property_dependency_to_element (x : PropertyDependency) :
    (property_dependency_to_element x).tag = "property-dependency" := rfl
@[simp] theorem tag_property_dependencies_to_element (x : PropertyDependencies) :
    (property_dependencies_to_element x).tag = "property-dependencies" := rfl
@[simp] theorem tag_uses_feature_to_element (x : UsesFeature) :
    (uses_feature_to_element x).tag = "uses-feature" := rfl
@[simp] theorem tag_feature_usage_to_element (x : FeatureUsage) :
    (feature_usage_to_element x).tag = "feature-usage" := rfl
@[simp] theorem tag_domain_to_element (x : Domain) :
    (domain_to_element x).tag = "domain" := rfl
@[simp] theorem tag_external_service_usage_to_element (x : ExternalServiceUsage) :
    (external_service_usage_to_element x).tag = "external-service-usage" := rfl
@[simp] theorem tag_platform_action_to_element (x : PlatformAction) :
    (platform_action_to_element x).tag = "platform-action" := rfl
@[simp] theorem tag_code_to_element (x : Code) :
    (code_to_element x).tag = "code" := rfl
@[simp] theorem tag_css_to_element (x : Css) :
    (css_to_element x).tag = "css" := rfl
@[simp] theorem tag_img_to_element (x : Img) :
    (img_to_element x).tag = "img" := rfl
@[simp] theorem tag_resx_to_element (x : Resx) :
    (resx_to_element x).tag = "resx" := rfl
@[simp] theorem tag_platform_library_to_element (x : PlatformLibrary) :
    (platform_library_to_element x).tag = "platform-library" := rfl
@[simp] theorem tag_dependency_to_element (x : Dependency) :
    (dependency_to_element x).tag = "dependency" := rfl
@[simp] theorem tag_resources_to_element (x : Resources) :
    (resources_to_element x).tag = "resources" := rfl
@[simp] theorem tag_control_to_element (x : Control) :
    (control_to_element x).tag = "control" := rfl

/-- Serialized tags carry no namespace. -/
@[simp] theorem strip_ns_type : strip_ns "type" = "type" := rfl
@[simp] theorem strip_ns_types : strip_ns "types" = "types" := rfl
@[simp] theorem strip_ns_type_group :
    strip_ns "type-group" = "type-group" := rfl
@[simp] theorem strip_ns_value : strip_ns "value" = "value" := rfl
@[simp] theorem strip_ns_property : strip_ns "property" = "property" := rfl
@[simp] theorem strip_ns_event : strip_ns "event" = "event" := rfl
@[simp] theorem strip_ns_property_set :
    strip_ns "property-set" = "property-set" := rfl
@[simp] theorem strip_ns_data_set : strip_ns "data-set" = "data-set" := rfl
@[simp] theorem strip_ns_property_dependency :
    strip_ns "property-dependency" = "property-dependency" := rfl
@[simp] theorem strip_ns_property_dependencies :
    strip_ns "property-dependencies" = "property-dependencies" := rfl
@[simp] theorem strip_ns_uses_feature :
    strip_ns "uses-feature" = "uses-feature" := rfl
@[simp] theorem strip_ns_feature_usage :
    strip_ns "feature-usage" = "feature-usage" := rfl
@[simp] theorem strip_ns_domain : strip_ns "domain" = "domain" := rfl
@[simp] theorem strip_ns_external_service_usage :
    strip_ns "external-service-usage" = "external-service-usage" := rfl
@[simp] theorem strip_ns_platform_action :
    strip_ns "platform-action" = "platform-action" := rfl
@[simp] theorem strip_ns_code : strip_ns "code" = "code" := rfl
@[simp] theorem strip_ns_css : strip_ns "css" = "css" := rfl
@[simp] theorem strip_ns_img : strip_ns "img" = "img" := rfl
@[simp] theorem strip_ns_resx : strip_ns "resx" = "resx" := rfl
@[simp] theorem strip_ns_platform_library :
    strip_ns "platform-library" = "platform-library" := rfl
@[simp] theorem strip_ns_dependency :
    strip_ns "dependency" = "dependency" := rfl
@[simp] theorem strip_ns_resources : strip_ns "resources" = "resources" := rfl
@[simp] theorem strip_ns_control : strip_ns "control" = "control" := rfl
@[simp] theorem strip_ns_manifest : strip_ns "manifest" = "manifest" := rfl

theorem filter_tag_map_self {α : Type} (f : α → Elem) (t : String)
    (xs : List α) (h : ∀ x, strip_ns (f x).tag = t) :
    (xs.map f).filter (fun c => strip_ns c.tag = t) = xs.map f := by
  induction xs with
  | nil => rfl
  | cons x rest ih => simp [h x, ih]

theorem filter_tag_map_ne {α : Type} (f : α → Elem) (t : String)
    (xs : List α) (h : ∀ x, ¬(strip_ns (f x).tag = t)) :
    (xs.map f).filter (fun c => strip_ns c.tag = t) = [] := by
  induction xs with
  | nil => rfl
  | cons x rest ih => simp [h x, ih]

theorem find_tag_map_ne {α : Type} (f : α → Elem) (t : String)
    (xs : List α) (h : ∀ x, ¬(strip_ns (f x).tag = t)) :
    (xs.map f).find? (fun c => strip_ns c.tag = t) = none := by
  induction xs with
  | nil => rfl
  | cons x rest ih => simp [List.find?_cons, h x, ih]

theorem filter_tag_optElems_ne {α : Type} (f : α → Elem) (t : String)
    (o : Option α) (h : ∀ x, ¬(strip_ns (f x).tag = t)) :
    (optElems o f).filter (fun c => strip_ns c.tag = t) = [] := by
  cases o with
  | none => rfl
  | some x => simp [optElems, h x]

theorem find_tag_optElems_self {α : Type} (f : α → Elem) (t : String)
    (o : Option α) (h : ∀ x, strip_ns (f x).tag = t) :
    (optElems o f).find? (fun c => strip_ns c.tag = t) = o.map f := by
  cases o with
  | none => rfl
  | some x => simp [optElems, List.find?_cons, h x]

theorem find_tag_optElems_ne {α : Type} (f : α → Elem) (t : String)
    (o : Option α) (h : ∀ x, ¬(strip_ns (f x).tag = t)) :
    (optElems o f).find? (fun c => strip_ns c.tag = t) = none := by
  cases o with
  | none => rfl
  | some x => simp [optElems, List.find?_cons, h x]

/-! Children views of serialized parents. -/

theorem children_types (t : TypesElement) :
    childrenTag (types_to_element t) "type" = t.types.map type_element := by
  simp only [types_to_element, childrenTag_mk]
  exact filter_tag_map_self _ _ _ (fun x => by simp)

theorem children_type_group (g : TypeGroup) :
    childrenTag (type_group_to_element g) "type" = g.types.map type_element := by
  simp only [type_group_to_element, childrenTag_mk]
  exact filter_tag_map_self _ _ _ (fun x => by simp)

theorem children_property_value (p : Property) :
    childrenTag (property_to_element p) "value" =
      p.values.map enum_value_to_element := by
  simp only [property_to_element, childrenTag_mk, List.filter_append]
  rw [filter_tag_optElems_ne _ _ _ (fun x => by simp),
    filter_tag_map_self _ _ _ (fun x => by simp)]
  rfl

theorem first_child_property_types (p : Property) :
    first_child (property_to_element p) "types" =
      p.types.map types_to_element := by
  simp only [property_to_element, first_child_mk, List.find?_append]
  rw [find_tag_optElems_self _ _ _ (fun x => by simp),
    find_tag_map_ne _ _ _ (fun x => by simp)]
  simp [Option.or_none]

theorem first_child_property_set_types (p : PropertySet) :
    first_child (property_set_to_element p) "types" =
      p.types.map types_to_element := by
  simp only [property_set_to_element, first_child_mk]
  rw [find_tag_optElems_self _ _ _ (fun x => by simp)]

theorem children_dataset_property_set (d : DataSet) :
    childrenTag (dataset_to_element d) "property-set" =
      d.property_set.map property_set_to_element := by
  simp only [dataset_to_element, childrenTag_mk]
  exact filter_tag_map_self _ _ _ (fun x => by simp)

theorem children_property_dependencies (d : PropertyDependencies) :
    childrenTag (property_dependencies_to_element d) "property-dependency" =
      d.property_dependency.map property_dependency_to_element := by
  simp only [property_dependencies_to_element, childrenTag_mk]
  exact filter_tag_map_self _ _ _ (fun x => by simp)

theorem children_feature_usage (f : FeatureUsage) :
    childrenTag (feature_usage_to_element f) "uses-feature" =
      f.uses_feature.map uses_feature_to_element := by
  simp only [feature_usage_to_element, childrenTag_mk]
  exact filter_tag_map_self _ _ _ (fun x => by simp)

theorem children_esu_domain (u : ExternalServiceUsage) :
    childrenTag (external_service_usage_to_element u) "domain" =
      u.domain.map domain_to_element := by
  simp only [external_service_usage_to_element, childrenTag_mk]
  exact filter_tag_map_self _ _ _ (fun x => by simp)

theorem first_child_resources_code (r : Resources) :
    first_child (resources_to_element r) "code" =
      some (code_to_element r.code) := by
  simp [resources_to_element, List.find?_cons]

theorem children_resources_css (r : Resources) :
    childrenTag (resources_to_element r) "css" = r.css.map css_to_element := by
  simp only [resources_to_element, childrenTag_mk, List.filter_cons,
    List.filter_append]
  rw [filter_tag_map_self _ _ _ (fun x => by simp),
    filter_tag_map_ne resx_to_element _ _ (fun x => by simp),
    filter_tag_map_ne img_to_element _ _ (fun x => by simp),
    filter_tag_map_ne platform_library_to_element _ _ (fun x => by simp),
    filter_tag_map_ne dependency_to_element _ _ (fun x => by simp)]
  simp

theorem children_resources_img (r : Resources) :
    childrenTag (resources_to_element r) "img" = r.img.map img_to_element := by
  simp only [resources_to_element, childrenTag_mk, List.filter_cons,
    List.filter_append]
  rw [filter_tag_map_self img_to_element _ _ (fun x => by simp),
    filter_tag_map_ne resx_to_element _ _ (fun x => by simp),
    filter_tag_map_ne css_to_element _ _ (fun x => by simp),
    filter_tag_map_ne platform_library_to_element _ _ (fun x => by simp),
    filter_tag_map_ne dependency_to_element _ _ (fun x => by simp)]
  simp

theorem children_resources_resx (r : Resources) :
    childrenTag (resources_to_element r) "resx" = r.resx.map resx_to_element := by
  simp only [resources_to_element, childrenTag_mk, List.filter_cons,
    List.filter_append]
  rw [filter_tag_map_self resx_to_element _ _ (fun x => by simp),
    filter_tag_map_ne css_to_element _ _ (fun x => by simp),
    filter_tag_map_ne img_to_element _ _ (fun x => by simp),
    filter_tag_map_ne platform_library_to_element _ _ (fun x => by simp),
    filter_tag_map_ne dependency_to_element _ _ (fun x => by simp)]
  simp

theorem children_resources_platform_library (r : Resources) :
    childrenTag (resources_to_element r) "platform-library" =
      r.platform_library.map platform_library_to_element := by
  simp only [resources_to_element, childrenTag_mk, List.filter_cons,
    List.filter_append]
  rw [filter_tag_map_self platform_library_to_element _ _ (fun x => by simp),
    filter_tag_map_ne css_to_element _ _ (fun x => by simp),
    filter_tag_map_ne img_to_element _ _ (fun x => by simp),
    filter_tag_map_ne resx_to_element _ _ (fun x => by simp),
    filter_tag_map_ne dependency_to_element _ _ (fun x => by simp)]
  simp

theorem children_resources_dependency (r : Resources) :
    childrenTag (resources_to_element r) "dependency" =
      r.dependency.map dependency_to_element := by
  simp only [resources_to_element, childrenTag_mk, List.filter_cons,
    List.filter_append]
  rw [filter_tag_map_self dependency_to_element _ _ (fun x => by simp),
    filter_tag_map_ne css_to_element _ _ (fun x => by simp),
    filter_tag_map_ne img_to_element _ _ (fun x => by simp),
    filter_tag_map_ne resx_to_element _ _ (fun x => by simp),
    filter_tag_map_ne platform_library_to_element _ _ (fun x => by simp)]
  simp

theorem children_control_property (c : Control) :
    childrenTag (control_to_element c) "property" =
      c.property.map property_to_element := by
  simp only [control_to_element, childrenTag_mk, List.filter_append]
  rw [filter_tag_map_self _ _ _ (fun x => by simp),
    filter_tag_map_ne event_to_element _ _ (fun x => by simp),
    filter_tag_map_ne dataset_to_element _ _ (fun x => by simp),
    filter_tag_map_ne type_group_to_element _ _ (fun x => by simp),
    filter_tag_optElems_ne property_dependencies_to_element _ _
      (fun x => by simp),
    filter_tag_optElems_ne feature_usage_to_element _ _ (fun x => by simp),
    filter_tag_optElems_ne external_service_usage_to_element _ _
      (fun x => by simp),
    filter_tag_optElems_ne platform_action_to_element _ _ (fun x => by simp)]
  simp

theorem children_control_event (c : Control) :
    childrenTag (control_to_element c) "event" =
      c.event.map event_to_element := by
  simp only [control_to_element, childrenTag_mk, List.filter_append]
  rw [filter_tag_map_self event_to_element _ _ (fun x => by simp),
    filter_tag_map_ne property_to_element _ _ (fun x => by simp),
    filter_tag_map_ne dataset_to_element _ _ (fun x => by simp),
    filter_tag_map_ne type_group_to_element _ _ (fun x => by simp),
    filter_tag_optElems_ne property_dependencies_to_element _ _
      (fun x => by simp),
    filter_tag_optElems_ne feature_usage_to_element _ _ (fun x => by simp),
    filter_tag_optElems_ne external_service_usage_to_element _ _
      (fun x => by simp),
    filter_tag_optElems_ne platform_action_to_element _ _ (fun x => by simp)]
  simp

theorem children_control_data_set (c : Control) :
    childrenTag (control_to_element c) "data-set" =
      c.data_set.map dataset_to_element := by
  simp only [control_to_element, childrenTag_mk, List.filter_append]
  rw [filter_tag_map_self dataset_to_element _ _ (fun x => by simp),
    filter_tag_map_ne property_to_element _ _ (fun x => by simp),
    filter_tag_map_ne event_to_element _ _ (fun x => by simp),
    filter_tag_map_ne type_group_to_element _ _ (fun x => by simp),
    filter_tag_optElems_ne property_dependencies_to_element _ _
      (fun x => by simp),
    filter_tag_optElems_ne feature_usage_to_element _ _ (fun x => by simp),
    filter_tag_optElems_ne external_service_usage_to_element _ _
      (fun x => by simp),
    filter_tag_optElems_ne platform_action_to_element _ _ (fun x => by simp)]
  simp

theorem children_control_type_group (c : Control) :
    childrenTag (control_to_element c) "type-group" =
      c.type_group.map type_group_to_element := by
  simp only [control_to_element, childrenTag_mk, List.filter_append]
  rw [filter_tag_map_self type_group_to_element _ _ (fun x => by simp),
    filter_tag_map_ne property_to_element _ _ (fun x => by simp),
    filter_tag_map_ne event_to_element _ _ (fun x => by simp),
    filter_tag_map_ne dataset_to_element _ _ (fun x => by simp),
    filter_tag_optElems_ne property_dependencies_to_element _ _
      (fun x => by simp),
    filter_tag_optElems_ne feature_usage_to_element _ _ (fun x => by simp),
    filter_tag_optElems_ne external_service_usage_to_element _ _
      (fun x => by simp),
    filter_tag_optElems_ne platform_action_to_element _ _ (fun x => by simp)]
  simp

theorem first_child_control_aux (c : Control) (t : String)
    (h1 : ¬("property" = t)) (h2 : ¬("event" = t)) (h3 : ¬("data-set" = t))
    (h4 : ¬("type-group" = t)) :
    first_child (control_to_element c) t =
      (optElems c.property_dependencies property_dependencies_to_element ++
        optElems c.feature_usage feature_usage_to_element ++
        optElems c.external_service_usage external_service_usage_to_element ++
        optElems c.platform_action platform_action_to_element ++
        [resources_to_element c.resources]).find?
          (fun x => strip_ns x.tag = t) := by
  simp only [control_to_element, first_child_mk, List.find?_append]
  rw [find_tag_map_ne property_to_element _ _ (fun x => by simp [h1]),
    find_tag_map_ne event_to_element _ _ (fun x => by simp [h2]),
    find_tag_map_ne dataset_to_element _ _ (fun x => by simp [h3]),
    find_tag_map_ne type_group_to_element _ _ (fun x => by simp [h4])]
  simp [List.find?_append, Option.none_or]

theorem first_child_control_pd (c : Control) :
    first_child (control_to_element c) "property-dependencies" =
      c.property_dependencies.map property_dependencies_to_element := by
  rw [first_child_control_aux c _ (by simp) (by simp) (by simp) (by simp)]
  simp only [List.find?_append]
  rw [find_tag_optElems_self _ _ _ (fun x => by simp),
    find_tag_optElems_ne feature_usage_to_element _ _ (fun x => by simp),
    find_tag_optElems_ne external_service_usage_to_element _ _
      (fun x => by simp),
    find_tag_optElems_ne platform_action_to_element _ _ (fun x => by simp)]
  simp [List.find?_cons]

theorem first_child_control_fu (c : Control) :
    first_child (control_to_element c) "feature-usage" =
      c.feature_usage.map feature_usage_to_element := by
  rw [first_child_control_aux c _ (by simp) (by simp) (by simp) (by simp)]
  simp only [List.find?_append]
  rw [find_tag_optElems_self feature_usage_to_element _ _ (fun x => by simp),
    find_tag_optElems_ne property_dependencies_to_element _ _
      (fun x => by simp),
    find_tag_optElems_ne external_service_usage_to_element _ _
      (fun x => by simp),
    find_tag_optElems_ne platform_action_to_element _ _ (fun x => by simp)]
  simp [List.find?_cons]

theorem first_child_control_esu (c : Control) :
    first_child (control_to_element c) "external-service-usage" =
      c.external_service_usage.map external_service_usage_to_element := by
  rw [first_child_control_aux c _ (by simp) (by simp) (by simp) (by simp)]
  simp only [List.find?_append]
  rw [find_tag_optElems_self external_service_usage_to_element _ _
      (fun x => by simp),
    find_tag_optElems_ne property_dependencies_to_element _ _
      (fun x => by simp),
    find_tag_optElems_ne feature_usage_to_element _ _ (fun x => by simp),
    find_tag_optElems_ne platform_action_to_element _ _ (fun x => by simp)]
  simp [List.find?_cons]

theorem first_child_control_pa (c : Control) :
    first_child (control_to_element c) "platform-action" =
      c.platform_action.map platform_action_to_element := by
  rw [first_child_control_aux c _ (by simp) (by simp) (by simp) (by simp)]
  simp only [List.find?_append]
  rw [find_tag_optElems_self platform_action_to_element _ _ (fun x => by simp),
    find_tag_optElems_ne property_dependencies_to_element _ _
      (fun x => by simp),
    find_tag_optElems_ne feature_usage_to_element _ _ (fun x => by simp),
    find_tag_optElems_ne external_service_usage_to_element _ _
      (fun x => by simp)]
  simp [List.find?_cons]

theorem first_child_control_resources (c : Control) :
    first_child (control_to_element c) "resources" =
      some (resources_to_element c.resources) := by
  rw [first_child_control_aux c _ (by simp) (by simp) (by simp) (by simp)]
  simp only [List.find?_append]
  rw [find_tag_optElems_ne property_dependencies_to_element _ _
      (fun x => by simp),
    find_tag_optElems_ne feature_usage_to_element _ _ (fun x => by simp),
    find_tag_optElems_ne external_service_usage_to_element _ _
      (fun x => by simp),
    find_tag_optElems_ne platform_action_to_element _ _ (fun x => by simp)]
  simp [List.find?_cons]

theorem first_child_manifest_control (m : Manifest) :
    first_child (manifest_to_element m) "control" =
      some (control_to_element m.control) := by
  simp [manifest_to_element, List.find?_cons]

theorem rt_code (c : Code) (h : c.validB = true) :
    validate_code (parse_code (code_to_element c)) = .ok c := by
  rw [Code.validB, Bool.and_eq_true] at h
  obtain ⟨h1, h2⟩ := h
  have hp : ¬(c.path = "") :=
    ne_empty_of_isEmpty_false (by simpa using h1)
  have hpos : 0 < c.order := by simpa using h2
  have hpath := getAttr_mk "code"
    [("path", some c.path), ("order", some (nat_str c.order))] "" [] "path"
    (by simp)
  have horder := getAttr_mk "code"
    [("path", some c.path), ("order", some (nat_str c.order))] "" [] "order"
    (by simp)
  simp only [lookupOA] at hpath horder
  simp [empty_to_none_of_ne, hp, nat_str_ne_empty] at hpath horder
  simp only [parse_code, code_to_element, str_frag_eq, int_frag_eq]
  rw [hpath, horder]
  simp [validate_code, v_req_str, v_req_int, v_req_posint, getKeyA,
    getKey_append, getKey_entryOf, getKey, va, v_extra,
    v_req_str_val_some hp, v_req_int_val, intOfPValue, pyIntLex_nat_str,
    empty_to_none_of_ne hp, entryOf, hpos]

theorem getAttr_of_attribs (e : Elem) (pairs : List (String × Option String))
    (h : e.attribs = ordered_attribs pairs) (k : String)
    (hnd : (pairs.map Prod.fst).Nodup) :
    e.getAttr k = empty_to_none ((lookupOA pairs k).join) := by
  unfold Elem.getAttr
  rw [h]
  exact lookupStr_ordered_attribs pairs k hnd

theorem int_str_ne_empty (i : Int) : ¬(int_str i = "") := by
  intro h
  by_cases hi : i < 0
  · unfold int_str at h
    rw [if_pos hi] at h
    have := congrArg String.data h
    rw [dash_append_data] at this
    simp at this
  · rw [int_str_data_nonneg (by omega)] at h
    exact nat_str_ne_empty _ h

theorem py_strip_empty : py_strip "" = "" := rfl

theorem css_order_attr_eq {o : Option Nat} (h : optPos o = true) :
    css_order_attr o = o.map nat_str := by
  cases o with
  | none => rfl
  | some n =>
      simp only [optPos, decide_eq_true_eq] at h
      simp [css_order_attr, Nat.pos_iff_ne_zero.mp h]

theorem empty_to_none_map_nat_str (o : Option Nat) :
    empty_to_none (o.map nat_str) = o.map nat_str := by
  cases o with
  | none => rfl
  | some n => simp [empty_to_none, nat_str_ne_empty n]

theorem bind_pyIntLex_map_nat_str (o : Option Nat) :
    (o.map nat_str).bind pyIntLex = o.map (fun n => PValue.PInt (n : Int)) := by
  cases o with
  | none => rfl
  | some n => simp [pyIntLex_nat_str n]

theorem empty_to_none_bool_value (o : Option Bool) :
    empty_to_none (bool_value o) = bool_value o := by
  cases o with
  | none => rfl
  | some b => cases b <;> rfl

theorem bind_pyBoolLex_bool_value (o : Option Bool) :
    (bool_value o).bind pyBoolLex = o := by
  cases o with
  | none => rfl
  | some b => simp [bool_value, pyBoolLex_bool_value b]

theorem empty_to_none_map_tok {α : Type} {tok : α → String}
    (h : ∀ t, ¬(tok t = "")) (o : Option α) :
    empty_to_none (o.map tok) = o.map tok := by
  cases o with
  | none => rfl
  | some t => simp [empty_to_none, h t]

theorem rt_css (x : Css) (h : x.validB = true) :
    validate_css (parse_css (css_to_element x)) = .ok x := by
  rw [Css.validB, Bool.and_eq_true] at h
  obtain ⟨h1, h2⟩ := h
  have hp : ¬(x.path = "") := ne_empty_of_isEmpty_false (by simpa using h1)
  have ha1 := getAttr_of_attribs (css_to_element x)
    [("path", some x.path), ("order", css_order_attr x.order)] rfl "path"
    (by simp)
  have ha2 := getAttr_of_attribs (css_to_element x)
    [("path", some x.path), ("order", css_order_attr x.order)] rfl "order"
    (by simp)
  rw [css_order_attr_eq h2] at ha2
  simp only [lookupOA] at ha1 ha2
  simp [empty_to_none_of_ne, hp] at ha1
  simp [empty_to_none_map_nat_str] at ha2
  simp only [parse_css, str_frag_eq, int_frag_eq, ha1, ha2,
    empty_to_none_of_ne hp, bind_pyIntLex_map_nat_str]
  simp [validate_css, v_req_str, v_opt_posint, getKeyA_or, getKey_append,
    getKey_entryOf, getKey, va, v_extra, v_req_str_val_some hp,
    v_opt_posint_val_map h2, v_opt_posint_val_bind h2, Option.or_self,
    filter_entryOf_false]

theorem rt_img (x : Img) (h : x.validB = true) :
    validate_img (parse_img (img_to_element x)) = .ok x := by
  rw [Img.validB] at h
  have hp : ¬(x.path = "") := ne_empty_of_isEmpty_false (by simpa using h)
  have ha1 := getAttr_of_attribs (img_to_element x)
    [("path", some x.path)] rfl "path" (by simp)
  simp only [lookupOA] at ha1
  simp [empty_to_none_of_ne, hp] at ha1
  simp only [parse_img, str_frag_eq, ha1, empty_to_none_of_ne hp]
  simp [validate_img, v_req_str, getKeyA, getKey_append, getKey_entryOf,
    getKey, va, v_extra, v_req_str_val_some hp, filter_entryOf_false]

theorem rt_resx (x : Resx) (h : x.validB = true) :
    validate_resx (parse_resx (resx_to_element x)) = .ok x := by
  rw [Resx.validB, Bool.and_eq_true] at h
  obtain ⟨h1, h2⟩ := h
  have hp : ¬(x.path = "") := ne_empty_of_isEmpty_false (by simpa using h1)
  have hv : ¬(x.version = "") := ne_empty_of_isEmpty_false (by simpa using h2)
  have ha1 := getAttr_of_attribs (resx_to_element x)
    [("path", some x.path), ("version", some x.version)] rfl "path" (by simp)
  have ha2 := getAttr_of_attribs (resx_to_element x)
    [("path", some x.path), ("version", some x.version)] rfl "version" (by simp)
  simp only [lookupOA] at ha1 ha2
  simp [empty_to_none_of_ne, hp, hv] at ha1 ha2
  simp only [parse_resx, str_frag_eq, ha1, ha2, empty_to_none_of_ne hp,
    empty_to_none_of_ne hv]
  simp [validate_resx, v_req_str, getKeyA, getKey_append, getKey_entryOf,
    getKey, va, v_extra, v_req_str_val_some hp, v_req_str_val_some hv,
    filter_entryOf_false]

theorem rt_platform_library (x : PlatformLibrary) (h : x.validB = true) :
    validate_platform_library
      (parse_platform_library (platform_library_to_element x)) = .ok x := by
  rw [PlatformLibrary.validB] at h
  have hv : ¬(x.version = "") := ne_empty_of_isEmpty_false (by simpa using h)
  have ha1 := getAttr_of_attribs (platform_library_to_element x)
    [("name", some x.name.tok), ("version", some x.version)] rfl "name"
    (by simp)
  have ha2 := getAttr_of_attribs (platform_library_to_element x)
    [("name", some x.name.tok), ("version", some x.version)] rfl "version"
    (by simp)
  simp only [lookupOA] at ha1 ha2
  simp [empty_to_none_of_ne, platformLibraryName_tok_ne x.name, hv]
    at ha1 ha2
  simp only [parse_platform_library, str_frag_eq, ha1, ha2,
    empty_to_none_of_ne (platformLibraryName_tok_ne x.name),
    empty_to_none_of_ne hv]
  simp [validate_platform_library, v_req_enum, v_req_str, getKeyA,
    getKey_append, getKey_entryOf, getKey, va, v_extra, v_req_enum_val,
    platformLibraryName_ofTok_tok x.name, v_req_str_val_some hv,
    filter_entryOf_false]

theorem rt_dependency (x : Dependency) (h : x.validB = true) :
    validate_dependency (parse_dependency (dependency_to_element x)) =
      .ok x := by
  rw [Dependency.validB, Bool.and_eq_true] at h
  obtain ⟨h1, h2⟩ := h
  have hn : ¬(x.name = "") := ne_empty_of_isEmpty_false (by simpa using h1)
  have pairs_def :
      (dependency_to_element x).attribs = ordered_attribs
        [("type", some x.type.tok), ("name", some x.name),
         ("order", css_order_attr x.order),
         ("load-type", x.load_type.map DependencyLoadType.tok)] := rfl
  have ha1 := getAttr_of_attribs _ _ pairs_def "type" (by simp)
  have ha2 := getAttr_of_attribs _ _ pairs_def "name" (by simp)
  have ha3 := getAttr_of_attribs _ _ pairs_def "order" (by simp)
  have ha4 := getAttr_of_attribs _ _ pairs_def "load-type" (by simp)
  rw [css_order_attr_eq h2] at ha3
  simp only [lookupOA] at ha1 ha2 ha3 ha4
  simp [empty_to_none_of_ne, dependencyType_tok_ne x.type, hn] at ha1 ha2
  simp [empty_to_none_map_nat_str] at ha3
  simp [empty_to_none_map_tok dependencyLoadType_tok_ne] at ha4
  simp only [parse_dependency, str_frag_eq, int_frag_eq, ha1, ha2, ha3, ha4,
    empty_to_none_of_ne (dependencyType_tok_ne x.type),
    empty_to_none_of_ne hn,
    empty_to_none_map_tok dependencyLoadType_tok_ne,
    bind_pyIntLex_map_nat_str]
  simp [validate_dependency, v_req_enum, v_req_str, v_opt_posint, v_opt_enum,
    getKeyA_or, getKey_append, getKey_entryOf, getKey, va, v_extra,
    v_req_enum_val, dependencyType_ofTok_tok x.type, v_req_str_val_some hn,
    v_opt_posint_val_map h2, v_opt_posint_val_bind h2, Option.or_self,
    v_opt_enum_val_map dependencyLoadType_ofTok_tok,
    v_opt_enum_val_comp dependencyLoadType_ofTok_tok, filter_entryOf_false]

@[simp] theorem text_enum_value_to_element (x : EnumValue) :
    (enum_value_to_element x).text = int_str x.value := rfl
@[simp] theorem text_domain_to_element (x : Domain) :
    (domain_to_element x).text = x.value := rfl
@[simp] theorem text_type_element (x : TypeElement) :
    (type_element x).text = x.value.tok := rfl

theorem filterMap_all_some {α β : Type} (f : α → Option β) (g : α → β)
    (l : List α) (h : ∀ x ∈ l, f x = some (g x)) :
    l.filterMap f = l.map g := by
  induction l with
  | nil => rfl
  | cons x rest ih =>
      simp only [List.filterMap_cons, h x (by simp), List.map_cons]
      rw [ih (fun y hy => h y (by simp [hy]))]

theorem rt_enum_value (x : EnumValue) (h : x.validB = true) :
    validate_enum_value (parse_value (enum_value_to_element x)) = .ok x := by
  rw [EnumValue.validB, Bool.and_eq_true] at h
  obtain ⟨h1, h2⟩ := h
  have hn : ¬(x.name = "") := ne_empty_of_isEmpty_false (by simpa using h1)
  have hd : ¬(x.display_name_key = "") :=
    ne_empty_of_isEmpty_false (by simpa using h2)
  have pairs_def : (enum_value_to_element x).attribs = ordered_attribs
      [("name", some x.name), ("display-name-key", some x.display_name_key)] :=
    rfl
  have ha1 := getAttr_of_attribs _ _ pairs_def "name" (by simp)
  have ha2 := getAttr_of_attribs _ _ pairs_def "display-name-key" (by simp)
  simp only [lookupOA] at ha1 ha2
  simp [empty_to_none_of_ne, hn, hd] at ha1 ha2
  simp only [parse_value, str_frag_eq, ha1, ha2, empty_to_none_of_ne hn,
    empty_to_none_of_ne hd, text_enum_value_to_element, py_strip_int_str,
    parse_py_int_int_str]
  simp [validate_enum_value, v_req_str, v_req_int, getKeyA_or, getKey_append,
    getKey_entryOf, getKey, va, v_extra, v_req_str_val_some hn,
    v_req_str_val_some hd, v_req_int_val, intOfPValue, Option.or_self,
    filter_entryOf_false, int_str_ne_empty x.value]

theorem rt_uses_feature (x : UsesFeature) (h : x.validB = true) :
    validate_uses_feature
      (str_frag (uses_feature_to_element x) "name" ++
        bool_frag (uses_feature_to_element x) "required") = .ok x := by
  rw [UsesFeature.validB] at h
  have hn : ¬(x.name = "") := ne_empty_of_isEmpty_false (by simpa using h)
  have pairs_def : (uses_feature_to_element x).attribs = ordered_attribs
      [("name", some x.name), ("required", bool_value (some x.required))] := rfl
  have ha1 := getAttr_of_attribs _ _ pairs_def "name" (by simp)
  have ha2 := getAttr_of_attribs _ _ pairs_def "required" (by simp)
  simp only [lookupOA] at ha1 ha2
  simp [empty_to_none_of_ne, hn] at ha1
  simp [empty_to_none_bool_value] at ha2
  simp only [str_frag_eq, bool_frag_eq, ha1, ha2, empty_to_none_of_ne hn,
    bind_pyBoolLex_bool_value]
  simp [validate_uses_feature, v_req_str, v_req_bool, getKeyA_or,
    getKey_append, getKey_entryOf, getKey, va, v_extra,
    v_req_str_val_some hn, v_req_bool_val, boolOfPValue, Option.or_self,
    filter_entryOf_false]

theorem rt_property_dependency (x : PropertyDependency) (h : x.validB = true) :
    validate_property_dependency
      (str_frag (property_dependency_to_element x) "input" ++
        (str_frag (property_dependency_to_element x) "output" ++
          str_frag (property_dependency_to_element x) "required-for")) =
      .ok x := by
  rw [PropertyDependency.validB, Bool.and_eq_true] at h
  obtain ⟨h1, h2⟩ := h
  have hi : ¬(x.input = "") := ne_empty_of_isEmpty_false (by simpa using h1)
  have ho : ¬(x.output = "") := ne_empty_of_isEmpty_false (by simpa using h2)
  have pairs_def : (property_dependency_to_element x).attribs = ordered_attribs
      [("input", some x.input), ("output", some x.output),
       ("required-for", some x.required_for.tok)] := rfl
  have ha1 := getAttr_of_attribs _ _ pairs_def "input" (by simp)
  have ha2 := getAttr_of_attribs _ _ pairs_def "output" (by simp)
  have ha3 := getAttr_of_attribs _ _ pairs_def "required-for" (by simp)
  simp only [lookupOA] at ha1 ha2 ha3
  simp [empty_to_none_of_ne, hi, ho, requiredFor_tok_ne x.required_for]
    at ha1 ha2 ha3
  simp only [str_frag_eq, ha1, ha2, ha3, empty_to_none_of_ne hi,
    empty_to_none_of_ne ho,
    empty_to_none_of_ne (requiredFor_tok_ne x.required_for)]
  simp [validate_property_dependency, v_req_str, v_req_enum, getKeyA_or,
    getKey_append, getKey_entryOf, getKey, va, v_extra,
    v_req_str_val_some hi, v_req_str_val_some ho, v_req_enum_val,
    requiredFor_ofTok_tok x.required_for, Option.or_self,
    filter_entryOf_false]

theorem rt_event (x : Event) (h : x.validB = true) :
    validate_event (parse_event (event_to_element x)) = .ok x := by
  rw [Event.validB, Bool.and_eq_true, Bool.and_eq_true, Bool.and_eq_true] at h
  obtain ⟨⟨⟨h1, h2⟩, h3⟩, h4⟩ := h
  have hn : ¬(x.name = "") := ne_empty_of_isEmpty_false (by simpa using h1)
  have pairs_def : (event_to_element x).attribs = ordered_attribs
      [("name", some x.name), ("pfx-default-value", x.pfx_default_value),
       ("display-name-key", x.display_name_key),
       ("description-key", x.description_key)] := rfl
  have ha1 := getAttr_of_attribs _ _ pairs_def "name" (by simp)
  have ha2 := getAttr_of_attribs _ _ pairs_def "pfx-default-value" (by simp)
  have ha3 := getAttr_of_attribs _ _ pairs_def "display-name-key" (by simp)
  have ha4 := getAttr_of_attribs _ _ pairs_def "description-key" (by simp)
  simp only [lookupOA] at ha1 ha2 ha3 ha4
  simp [empty_to_none_of_ne, hn] at ha1
  simp [empty_to_none_optNE h4] at ha2
  simp [empty_to_none_optNE h2] at ha3
  simp [empty_to_none_optNE h3] at ha4
  simp only [parse_event, str_frag_eq, ha1, ha2, ha3, ha4,
    empty_to_none_of_ne hn, empty_to_none_optNE h2, empty_to_none_optNE h3,
    empty_to_none_optNE h4]
  simp [validate_event, v_req_str, v_opt_str, getKeyA_or, getKey_append,
    getKey_entryOf, getKey, va, v_extra, v_req_str_val_some hn,
    v_opt_str_val_map h2, v_opt_str_val_map h3, v_opt_str_val_map h4,
    Option.or_self, filter_entryOf_false]

theorem rt_platform_action (x : PlatformAction) :
    validate_platform_action
      (parse_platform_action (platform_action_to_element x)) = .ok x := by
  have pairs_def : (platform_action_to_element x).attribs = ordered_attribs
      [("action-type", x.action_type.map PlatformActionType.tok)] := rfl
  have ha1 := getAttr_of_attribs _ _ pairs_def "action-type" (by simp)
  simp only [lookupOA] at ha1
  simp [empty_to_none_map_tok platformActionType_tok_ne] at ha1
  simp only [parse_platform_action, str_frag_eq, ha1,
    empty_to_none_map_tok platformActionType_tok_ne]
  simp [validate_platform_action, v_opt_enum, getKeyA_or, getKey_append,
    getKey_entryOf, getKey, va, v_extra,
    v_opt_enum_val_map platformActionType_ofTok_tok,
    v_opt_enum_val_comp platformActionType_ofTok_tok, Option.or_self,
    filter_entryOf_false]

theorem rt_type_element_dict (tv : TypeValue) :
    validate_type_element [("value", PValue.PStr tv.tok)] = .ok ⟨tv⟩ := by
  simp [validate_type_element, v_req_enum, getKeyA_or, getKey, va, v_extra,
    v_req_enum_val, typeValue_ofTok_tok tv, Option.or_self]

theorem parse_type_children_map (e : Elem) (ts : List TypeElement)
    (h : childrenTag e "type" = ts.map type_element) :
    parse_type_children e =
      ts.map (fun ty => PValue.PDict [("value", PValue.PStr ty.value.tok)]) := by
  unfold parse_type_children
  rw [h, List.filterMap_map]
  exact filterMap_all_some _ _ ts (fun ty _ => by
    simp [typeValue_tok_strip ty.value, typeValue_tok_ne ty.value])

theorem v_items_map_map_ok {α : Type} (f : PValue → VRes α) (g : α → Elem)
    (F : Elem → PValue) (xs : List α) (h : ∀ x ∈ xs, f (F (g x)) = .ok x)
    (i : Nat) : v_items f i ((xs.map g).map F) = .ok xs := by
  rw [List.map_map]
  exact v_items_map_ok f (F ∘ g) xs h i

theorem rt_types_element (t : TypesElement) (h : t.validB = true) :
    validate_types_element (parse_types (types_to_element t)) = .ok t := by
  rw [TypesElement.validB] at h
  have hne : ¬(t.types = []) := by simpa using h
  have hch := parse_type_children_map (types_to_element t) t.types
    (children_types t)
  have hitems := v_items_map_ok (v_model validate_type_element)
    (fun ty => PValue.PDict [("value", PValue.PStr ty.value.tok)]) t.types
    (fun ty _ => by simp [v_model, rt_type_element_dict ty.value]) 0
  simp only [parse_types, hch]
  simp [validate_types_element, v_after, v_list_obj, v_list_obj_val,
    getKeyA_or, getKey, va, v_extra, hitems, types_cross,
    Except.mapError, Option.or_self, h, hne]

theorem rt_type_group (g : TypeGroup) (h : g.validB = true) :
    validate_type_group (parse_type_group (type_group_to_element g)) =
      .ok g := by
  rw [TypeGroup.validB, Bool.and_eq_true] at h
  obtain ⟨h1, h2⟩ := h
  have hn : ¬(g.name = "") := ne_empty_of_isEmpty_false (by simpa using h1)
  have hne2 : ¬(g.types = []) := by simpa using h2
  have pairs_def : (type_group_to_element g).attribs = ordered_attribs
      [("name", some g.name)] := rfl
  have ha1 := getAttr_of_attribs _ _ pairs_def "name" (by simp)
  simp only [lookupOA] at ha1
  simp [empty_to_none_of_ne, hn] at ha1
  have hch := parse_type_children_map (type_group_to_element g) g.types
    (children_type_group g)
  have hitems := v_items_map_ok (v_model validate_type_element)
    (fun ty => PValue.PDict [("value", PValue.PStr ty.value.tok)]) g.types
    (fun ty _ => by simp [v_model, rt_type_element_dict ty.value]) 0
  simp only [parse_type_group, str_frag_eq, ha1, empty_to_none_of_ne hn, hch]
  simp [validate_type_group, v_after, v_req_str, v_list_obj, v_list_obj_val,
    getKeyA_or, getKey_append, getKey_entryOf, getKey, va, v_extra, hitems,
    type_group_cross, v_req_str_val_some hn, Except.mapError, Option.or_self,
    filter_entryOf_false, h2, hne2]

theorem rt_domain_dict (v : String) (h : ¬(v = "")) :
    validate_domain [("value", PValue.PStr v)] = .ok ⟨v⟩ := by
  simp [validate_domain, v_req_str, getKeyA_or, getKey, va, v_extra,
    v_req_str_val_some h, Option.or_self]

theorem rt_external_service_usage (u : ExternalServiceUsage)
    (h : u.validB = true)
    (htrim : ∀ d ∈ u.domain, py_strip d.value = d.value) :
    validate_external_service_usage
      (parse_external_service_usage (external_service_usage_to_element u)) =
      .ok u := by
  obtain ⟨en, dom⟩ := u
  rw [ExternalServiceUsage.validB, Bool.and_eq_true] at h
  obtain ⟨h1, h2⟩ := h
  have hdomvalid : ∀ d ∈ dom, ¬(d.value = "") := fun d hd =>
    ne_empty_of_isEmpty_false
      (by simpa [Domain.validB] using List.all_eq_true.mp h2 d hd)
  have pairs_def : (external_service_usage_to_element ⟨en, dom⟩).attribs =
      ordered_attribs [("enabled", bool_value en)] := rfl
  have ha1 := getAttr_of_attribs _ _ pairs_def "enabled" (by simp)
  simp only [lookupOA] at ha1
  simp [empty_to_none_bool_value] at ha1
  have hitems := v_items_map_ok (v_model validate_domain)
    (fun d => PValue.PDict [("value", PValue.PStr d.value)]) dom
    (fun d hd => by
      simp only [v_model]
      rw [rt_domain_dict d.value (hdomvalid d hd)]) 0
  simp only [parse_external_service_usage]
  rw [children_esu_domain, List.filterMap_map,
    filterMap_all_some _ (fun d => PValue.PDict [("value", PValue.PStr d.value)])
      dom (fun d hd => by
        simp [Function.comp, htrim d hd, hdomvalid d hd])]
  simp only [bool_frag_eq, ha1, bind_pyBoolLex_bool_value]
  cases dom with
  | nil =>
      have hen : en.getD false = false := by
        revert h1
        cases en.getD false <;> simp
      simp [validate_external_service_usage, v_after, v_opt_bool, v_list_obj,
        v_list_obj_val, getKeyA_or, getKey_append, getKey_entryOf, getKey, va,
        v_extra, external_service_usage_cross, hen, v_opt_bool_val_map,
        Option.or_self, filter_entryOf_false]
  | cons d0 ds =>
      simp only [List.map_cons] at hitems
      simp only [List.map_cons, List.isEmpty_cons]
      simp [validate_external_service_usage, v_after, v_opt_bool, v_list_obj,
        v_list_obj_val, getKeyA_or, getKey_append, getKey_entryOf, getKey, va,
        v_extra, external_service_usage_cross, v_opt_bool_val_map,
        hitems, Except.mapError, Option.or_self, filter_entryOf_false]

theorem rt_feature_usage (f : FeatureUsage) (h : f.validB = true) :
    validate_feature_usage
      (parse_feature_usage (feature_usage_to_element f)) = .ok f := by
  rw [FeatureUsage.validB, Bool.and_eq_true] at h
  obtain ⟨h1, h2⟩ := h
  have hitems := v_items_map_map_ok (v_model validate_uses_feature)
    uses_feature_to_element
    (fun e => PValue.PDict (str_frag e "name" ++ bool_frag e "required"))
    f.uses_feature
    (fun uf huf => rt_uses_feature uf (List.all_eq_true.mp h2 uf huf)) 0
  have hne : ¬(f.uses_feature = []) := by simpa using h1
  simp only [List.map_map] at hitems
  simp only [parse_feature_usage, children_feature_usage]
  simp [validate_feature_usage, v_after, v_list_obj, v_list_obj_val,
    getKeyA_or, getKey, va, v_extra, feature_usage_cross,
    hitems, Except.mapError, Option.or_self, h1, hne]

theorem rt_property_dependencies (p : PropertyDependencies)
    (h : p.validB = true) :
    validate_property_dependencies
      (parse_property_dependencies (property_dependencies_to_element p)) =
      .ok p := by
  rw [PropertyDependencies.validB, Bool.and_eq_true] at h
  obtain ⟨h1, h2⟩ := h
  have hitems := v_items_map_map_ok (v_model validate_property_dependency)
    property_dependency_to_element
    (fun e => PValue.PDict (str_frag e "input" ++ (str_frag e "output" ++
      str_frag e "required-for")))
    p.property_dependency
    (fun d hd => rt_property_dependency d (List.all_eq_true.mp h2 d hd)) 0
  have hne : ¬(p.property_dependency = []) := by simpa using h1
  simp only [List.map_map] at hitems
  simp only [parse_property_dependencies, children_property_dependencies]
  simp [validate_property_dependencies, v_after, v_list_obj, v_list_obj_val,
    getKeyA_or, getKey, va, v_extra, property_dependencies_cross,
    hitems, Except.mapError, Option.or_self, h1, hne]

theorem rt_resources (r : Resources) (h : r.validB = true) :
    validate_resources (parse_resources (resources_to_element r)) = .ok r := by
  rw [Resources.validB, Bool.and_eq_true, Bool.and_eq_true, Bool.and_eq_true,
    Bool.and_eq_true, Bool.and_eq_true] at h
  obtain ⟨⟨⟨⟨⟨hcode, hcss⟩, himg⟩, hresx⟩, hpl⟩, hdep⟩ := h
  have hicss := v_items_map_map_ok (v_model validate_css) css_to_element
    (fun e => PValue.PDict (parse_css e)) r.css
    (fun x hx => rt_css x (List.all_eq_true.mp hcss x hx)) 0
  have hiimg := v_items_map_map_ok (v_model validate_img) img_to_element
    (fun e => PValue.PDict (parse_img e)) r.img
    (fun x hx => rt_img x (List.all_eq_true.mp himg x hx)) 0
  have hiresx := v_items_map_map_ok (v_model validate_resx) resx_to_element
    (fun e => PValue.PDict (parse_resx e)) r.resx
    (fun x hx => rt_resx x (List.all_eq_true.mp hresx x hx)) 0
  have hipl := v_items_map_map_ok (v_model validate_platform_library)
    platform_library_to_element
    (fun e => PValue.PDict (parse_platform_library e)) r.platform_library
    (fun x hx => rt_platform_library x (List.all_eq_true.mp hpl x hx)) 0
  have hidep := v_items_map_map_ok (v_model validate_dependency)
    dependency_to_element
    (fun e => PValue.PDict (parse_dependency e)) r.dependency
    (fun x hx => rt_dependency x (List.all_eq_true.mp hdep x hx)) 0
  simp only [List.map_map] at hicss hiimg hiresx hipl hidep
  simp only [parse_resources, first_child_resources_code,
    children_resources_css, children_resources_img, children_resources_resx,
    children_resources_platform_library, children_resources_dependency]
  simp [validate_resources, v_req_obj, v_req_obj_val, v_list_obj,
    v_list_obj_val, v_model, getKeyA_or, getKey_append, getKey_entryOf,
    getKey, va, v_extra, rt_code r.code hcode, hicss, hiimg,
    hiresx, hipl, hidep, Except.mapError, Option.or_self,
    filter_entryOf_false]

theorem v_opt_obj_val_map2 {α : Type} (f : PObj → VRes α) (al : String)
    (o : Option α) (g : α → Elem) (F : Elem → PValue)
    (h : ∀ t, o = some t → v_model f (F (g t)) = .ok t) :
    v_opt_obj_val f al ((o.map g).map F) = .ok o := by
  cases o with
  | none => rfl
  | some t =>
      simp only [Option.map_some']
      simp [v_opt_obj_val, h t rfl, Except.mapError]

theorem alnum_ne_empty {s : String} (h : py_isalnum s = true) : ¬(s = "") := by
  intro hs
  subst hs
  simp [py_isalnum] at h

theorem v_opt_enum_val_none {α : Type} (ofTok : String → Option α)
    (desc al : String) : v_opt_enum_val ofTok desc al none = .ok none := rfl

theorem v_opt_enum_val_some_tok {α : Type} {ofTok : String → Option α}
    {tok : α → String} (desc al : String) (t : α)
    (h : ofTok (tok t) = some t) :
    v_opt_enum_val ofTok desc al (some (PValue.PStr (tok t))) =
      .ok (some t) := by
  simp [v_opt_enum_val, h]

theorem typeValue_not_unsupported_mem (t : TypeValue) :
    t.tok ∉ UNSUPPORTED_TYPE_VALUES := by
  cases t <;> decide

theorem rt_property_set (x : PropertySet) (h : x.validB = true) :
    validate_property_set
      (parse_property_set (property_set_to_element x)) = .ok x := by
  obtain ⟨nm, dnk, dk, ot, otg, us, rq, ty⟩ := x
  rw [PropertySet.validB, Bool.and_eq_true, Bool.and_eq_true,
    Bool.and_eq_true, Bool.and_eq_true, Bool.and_eq_true] at h
  obtain ⟨⟨⟨⟨⟨h1, h2⟩, h3⟩, h4⟩, h5⟩, h6⟩ := h
  have hn : ¬(nm = "") := ne_empty_of_isEmpty_false (by simpa using h1)
  have hd : ¬(dnk = "") := ne_empty_of_isEmpty_false (by simpa using h2)
  have pairs_def :
      (property_set_to_element ⟨nm, dnk, dk, ot, otg, us, rq, ty⟩).attribs =
      ordered_attribs
        [("name", some nm), ("display-name-key", some dnk),
         ("description-key", dk), ("of-type", ot.map TypeValue.tok),
         ("of-type-group", otg), ("usage", us.map PropertySetUsage.tok),
         ("required", bool_value rq)] := rfl
  have ha1 := getAttr_of_attribs _ _ pairs_def "name" (by simp)
  have ha2 := getAttr_of_attribs _ _ pairs_def "display-name-key" (by simp)
  have ha3 := getAttr_of_attribs _ _ pairs_def "description-key" (by simp)
  have ha4 := getAttr_of_attribs _ _ pairs_def "of-type" (by simp)
  have ha5 := getAttr_of_attribs _ _ pairs_def "of-type-group" (by simp)
  have ha6 := getAttr_of_attribs _ _ pairs_def "usage" (by simp)
  have ha7 := getAttr_of_attribs _ _ pairs_def "required" (by simp)
  simp only [lookupOA] at ha1 ha2 ha3 ha4 ha5 ha6 ha7
  simp [empty_to_none_of_ne, hn] at ha1
  simp [empty_to_none_of_ne, hd] at ha2
  simp [empty_to_none_optNE h3] at ha3
  simp [empty_to_none_map_tok typeValue_tok_ne] at ha4
  simp [empty_to_none_optNE h4] at ha5
  simp [empty_to_none_map_tok propertySetUsage_tok_ne] at ha6
  simp [empty_to_none_bool_value] at ha7
  have hty := v_opt_obj_val_map2 validate_types_element "types" ty
    types_to_element (fun t => PValue.PDict (parse_types t))
    (fun t htt => by
      simp only [v_model]
      refine rt_types_element t ?_
      subst htt
      simpa using h6)
  simp only [Option.map_map] at hty
  simp only [parse_property_set, str_frag_eq, bool_frag_eq, ha1, ha2, ha3,
    ha4, ha5, ha6, ha7, empty_to_none_of_ne hn, empty_to_none_of_ne hd,
    empty_to_none_optNE h3, empty_to_none_optNE h4,
    empty_to_none_map_tok typeValue_tok_ne,
    empty_to_none_map_tok propertySetUsage_tok_ne,
    empty_to_none_bool_value, bind_pyBoolLex_bool_value,
    first_child_property_set_types, Option.map_map]
  cases ot with
  | none =>
      have hreq : pyTruthyStr otg = true := by
        simpa [pyTruthyOpt] using h5
      simp [validate_property_set, v_after, v_req_str, v_opt_str, v_of_type,
        v_opt_enum, v_opt_enum_val_none, v_opt_bool, v_opt_obj, getKeyA_or,
        getKey_append, getKey_entryOf, getKey, va, v_extra,
        property_set_cross, v_req_str_val_some hn, v_req_str_val_some hd,
        v_opt_str_val_map h3, v_opt_str_val_map h4,
        v_opt_enum_val_comp propertySetUsage_ofTok_tok, v_opt_bool_val_map,
        hty, hreq, pyTruthyOpt, Except.mapError, Option.or_self,
        filter_entryOf_false]
  | some t =>
      simp [validate_property_set, v_after, v_req_str, v_opt_str, v_of_type,
        v_opt_enum, v_opt_bool, v_opt_obj,
        getKeyA_or, getKey_append, getKey_entryOf, getKey, va, v_extra,
        property_set_cross, v_req_str_val_some hn, v_req_str_val_some hd,
        v_opt_str_val_map h3, v_opt_str_val_map h4,
        v_opt_enum_val_some_tok "a valid TypeValue" "of-type" t
          (typeValue_ofTok_tok t),
        typeValue_not_unsupported t, typeValue_not_unsupported_mem t,
        v_opt_enum_val_comp propertySetUsage_ofTok_tok, v_opt_bool_val_map,
        hty, pyTruthyOpt, Except.mapError, Option.or_self,
        filter_entryOf_false]

theorem isEmpty_map {α β : Type} (f : α → β) (l : List α) :
    (l.map f).isEmpty = l.isEmpty := by
  cases l <;> rfl

theorem rt_property (x : Property) (h : x.validB = true) :
    validate_property (parse_property (property_to_element x)) = .ok x := by
  obtain ⟨nm, dnk, dk, ot, otg, us, rq, dv, pfx, ty, vals⟩ := x
  rw [Property.validB, Bool.and_eq_true, Bool.and_eq_true, Bool.and_eq_true,
    Bool.and_eq_true, Bool.and_eq_true, Bool.and_eq_true, Bool.and_eq_true,
    Bool.and_eq_true, Bool.and_eq_true] at h
  obtain ⟨⟨⟨⟨⟨⟨⟨⟨⟨h1, h2⟩, h3⟩, h4⟩, h5⟩, h6⟩, h7⟩, h8⟩, h9⟩, h10⟩ := h
  have hn : ¬(nm = "") := ne_empty_of_isEmpty_false (by simpa using h1)
  have pairs_def :
      (property_to_element ⟨nm, dnk, dk, ot, otg, us, rq, dv, pfx, ty, vals⟩).attribs =
      ordered_attribs
        [("name", some nm), ("display-name-key", dnk),
         ("description-key", dk), ("of-type", ot.map TypeValue.tok),
         ("of-type-group", otg), ("usage", us.map PropertyUsage.tok),
         ("required", bool_value rq), ("default-value", dv),
         ("pfx-default-value", pfx)] := rfl
  have ha1 := getAttr_of_attribs _ _ pairs_def "name" (by simp)
  have ha2 := getAttr_of_attribs _ _ pairs_def "display-name-key" (by simp)
  have ha3 := getAttr_of_attribs _ _ pairs_def "description-key" (by simp)
  have ha4 := getAttr_of_attribs _ _ pairs_def "of-type" (by simp)
  have ha5 := getAttr_of_attribs _ _ pairs_def "of-type-group" (by simp)
  have ha6 := getAttr_of_attribs _ _ pairs_def "usage" (by simp)
  have ha7 := getAttr_of_attribs _ _ pairs_def "required" (by simp)
  have ha8 := getAttr_of_attribs _ _ pairs_def "default-value" (by simp)
  have ha9 := getAttr_of_attribs _ _ pairs_def "pfx-default-value" (by simp)
  simp only [lookupOA] at ha1 ha2 ha3 ha4 ha5 ha6 ha7 ha8 ha9
  simp [empty_to_none_of_ne, hn] at ha1
  simp [empty_to_none_optNE h2] at ha2
  simp [empty_to_none_optNE h3] at ha3
  simp [empty_to_none_map_tok typeValue_tok_ne] at ha4
  simp [empty_to_none_optNE h4] at ha5
  simp [empty_to_none_map_tok propertyUsage_tok_ne] at ha6
  simp [empty_to_none_bool_value] at ha7
  simp [empty_to_none_optNE h5] at ha8
  simp [empty_to_none_optNE h6] at ha9
  have hty := v_opt_obj_val_map2 validate_types_element "types" ty
    types_to_element (fun t => PValue.PDict (parse_types t))
    (fun t htt => by
      simp only [v_model]
      refine rt_types_element t ?_
      subst htt
      simpa using h9)
  simp only [Option.map_map] at hty
  have hvals := v_items_map_map_ok (v_model validate_enum_value)
    enum_value_to_element (fun e => PValue.PDict (parse_value e)) vals
    (fun v hv => rt_enum_value v (by simpa using List.all_eq_true.mp h10 v hv))
    0
  simp only [List.map_map] at hvals
  simp only [parse_property, str_frag_eq, bool_frag_eq, ha1, ha2, ha3, ha4,
    ha5, ha6, ha7, ha8, ha9, empty_to_none_of_ne hn, empty_to_none_optNE h2,
    empty_to_none_optNE h3, empty_to_none_optNE h4, empty_to_none_optNE h5,
    empty_to_none_optNE h6, empty_to_none_map_tok typeValue_tok_ne,
    empty_to_none_map_tok propertyUsage_tok_ne, empty_to_none_bool_value,
    bind_pyBoolLex_bool_value, first_child_property_types,
    children_property_value, Option.map_map, List.map_map]
  by_cases hve : vals.isEmpty = true
  case pos =>
      have hvnil : vals = [] := List.isEmpty_iff.mp hve
      subst hvnil
      cases ot with
      | none =>
          have hreq : pyTruthyStr otg = true := by
            simpa [pyTruthyOpt] using h7
          simp [validate_property, v_after, v_req_str, v_opt_str, v_of_type,
            v_opt_enum, v_opt_enum_val_none, v_opt_bool, v_opt_obj,
            v_list_obj, v_list_obj_val, getKeyA_or, getKey_append,
            getKey_entryOf, getKey, va, v_extra, property_cross,
            v_req_str_val_some hn, v_opt_str_val_map h2, v_opt_str_val_map h3,
            v_opt_str_val_map h4, v_opt_str_val_map h5, v_opt_str_val_map h6,
            v_opt_enum_val_comp propertyUsage_ofTok_tok, v_opt_bool_val_map,
            hty, hreq, pyTruthyOpt, Except.mapError, Option.or_self,
            filter_entryOf_false]
      | some t =>
          have henum : ¬(t = TypeValue.enum) := by simpa using h8
          simp [validate_property, v_after, v_req_str, v_opt_str, v_of_type,
            v_opt_enum, v_opt_bool, v_opt_obj, v_list_obj, v_list_obj_val,
            getKeyA_or, getKey_append, getKey_entryOf, getKey, va, v_extra,
            property_cross, v_req_str_val_some hn, v_opt_str_val_map h2,
            v_opt_str_val_map h3, v_opt_str_val_map h4, v_opt_str_val_map h5,
            v_opt_str_val_map h6,
            v_opt_enum_val_some_tok "a valid TypeValue" "of-type" t
              (typeValue_ofTok_tok t),
            typeValue_not_unsupported t, typeValue_not_unsupported_mem t,
            v_opt_enum_val_comp propertyUsage_ofTok_tok, v_opt_bool_val_map,
            hty, henum, pyTruthyOpt, Except.mapError, Option.or_self,
            filter_entryOf_false]
  case neg =>
      have hve' : vals.isEmpty = false := by
        revert hve
        cases vals.isEmpty <;> simp
      have hvne : ¬(vals = []) := by
        intro hh
        subst hh
        simp at hve'
      simp only [isEmpty_map, hve']
      cases ot with
      | none =>
          have hreq : pyTruthyStr otg = true := by
            simpa [pyTruthyOpt] using h7
          simp [validate_property, v_after, v_req_str, v_opt_str, v_of_type,
            v_opt_enum, v_opt_enum_val_none, v_opt_bool, v_opt_obj,
            v_list_obj, v_list_obj_val, getKeyA_or, getKey_append,
            getKey_entryOf, getKey, va, v_extra, property_cross,
            v_req_str_val_some hn, v_opt_str_val_map h2, v_opt_str_val_map h3,
            v_opt_str_val_map h4, v_opt_str_val_map h5, v_opt_str_val_map h6,
            v_opt_enum_val_comp propertyUsage_ofTok_tok, v_opt_bool_val_map,
            hty, hvals, hreq, hvne, pyTruthyOpt, Except.mapError,
            Option.or_self, filter_entryOf_false]
      | some t =>
          simp [validate_property, v_after, v_req_str, v_opt_str, v_of_type,
            v_opt_enum, v_opt_bool, v_opt_obj, v_list_obj, v_list_obj_val,
            getKeyA_or, getKey_append, getKey_entryOf, getKey, va, v_extra,
            property_cross, v_req_str_val_some hn, v_opt_str_val_map h2,
            v_opt_str_val_map h3, v_opt_str_val_map h4, v_opt_str_val_map h5,
            v_opt_str_val_map h6,
            v_opt_enum_val_some_tok "a valid TypeValue" "of-type" t
              (typeValue_ofTok_tok t),
            typeValue_not_unsupported t, typeValue_not_unsupported_mem t,
            v_opt_enum_val_comp propertyUsage_ofTok_tok, v_opt_bool_val_map,
            hty, hvals, hvne, pyTruthyOpt, Except.mapError, Option.or_self,
            filter_entryOf_false]

theorem rt_dataset (x : DataSet) (h : x.validB = true) :
    validate_dataset (parse_dataset (dataset_to_element x)) = .ok x := by
  rw [DataSet.validB, Bool.and_eq_true, Bool.and_eq_true, Bool.and_eq_true,
    Bool.and_eq_true] at h
  obtain ⟨⟨⟨⟨h1, h2⟩, h3⟩, h4⟩, h5⟩ := h
  have hn : ¬(x.name = "") := ne_empty_of_isEmpty_false (by simpa using h1)
  have hd : ¬(x.display_name_key = "") :=
    ne_empty_of_isEmpty_false (by simpa using h2)
  have pairs_def : (dataset_to_element x).attribs = ordered_attribs
      [("name", some x.name), ("display-name-key", some x.display_name_key),
       ("description-key", x.description_key),
       ("cds-data-set-options", x.cds_data_set_options)] := rfl
  have ha1 := getAttr_of_attribs _ _ pairs_def "name" (by simp)
  have ha2 := getAttr_of_attribs _ _ pairs_def "display-name-key" (by simp)
  have ha3 := getAttr_of_attribs _ _ pairs_def "description-key" (by simp)
  have ha4 := getAttr_of_attribs _ _ pairs_def "cds-data-set-options" (by simp)
  simp only [lookupOA] at ha1 ha2 ha3 ha4
  simp [empty_to_none_of_ne, hn] at ha1
  simp [empty_to_none_of_ne, hd] at ha2
  simp [empty_to_none_optNE h3] at ha3
  simp [empty_to_none_optNE h4] at ha4
  have hitems := v_items_map_map_ok (v_model validate_property_set)
    property_set_to_element (fun e => PValue.PDict (parse_property_set e))
    x.property_set
    (fun ps hps => rt_property_set ps (List.all_eq_true.mp h5 ps hps)) 0
  simp only [List.map_map] at hitems
  simp only [parse_dataset, str_frag_eq, ha1, ha2, ha3, ha4,
    empty_to_none_of_ne hn, empty_to_none_of_ne hd, empty_to_none_optNE h3,
    empty_to_none_optNE h4, children_dataset_property_set, List.map_map]
  simp [validate_dataset, v_req_str, v_opt_str, v_list_obj, v_list_obj_val,
    getKeyA_or, getKey_append, getKey_entryOf, getKey, va, v_extra,
    v_req_str_val_some hn, v_req_str_val_some hd, v_opt_str_val_map h3,
    v_opt_str_val_map h4, hitems, Except.mapError, Option.or_self,
    filter_entryOf_false]

theorem rt_control (c : Control) (h : c.validB = true)
    (htrim : ∀ u, c.external_service_usage = some u →
      ∀ d ∈ u.domain, py_strip d.value = d.value) :
    validate_control (parse_control (control_to_element c)) = .ok c := by
  rw [Control.validB, Bool.and_eq_true, Bool.and_eq_true, Bool.and_eq_true,
    Bool.and_eq_true, Bool.and_eq_true, Bool.and_eq_true, Bool.and_eq_true,
    Bool.and_eq_true, Bool.and_eq_true, Bool.and_eq_true, Bool.and_eq_true,
    Bool.and_eq_true, Bool.and_eq_true] at h
  obtain ⟨⟨⟨⟨⟨⟨⟨⟨⟨⟨⟨⟨⟨g1, g2⟩, g3⟩, g4⟩, g5⟩, g6⟩, g7⟩, g8⟩, g9⟩, g10⟩,
    g11⟩, g12⟩, g13⟩, g14⟩ := h
  have hns : ¬(c.nspace = "") := alnum_ne_empty g1
  have hct : ¬(c.constructor = "") := alnum_ne_empty g2
  have hv : ¬(c.version = "") := ne_empty_of_isEmpty_false (by simpa using g3)
  have hd : ¬(c.display_name_key = "") :=
    ne_empty_of_isEmpty_false (by simpa using g4)
  have pairs_def : (control_to_element c).attribs = ordered_attribs
      [("namespace", some c.nspace), ("constructor", some c.constructor),
       ("version", some c.version),
       ("display-name-key", some c.display_name_key),
       ("description-key", c.description_key),
       ("control-type", c.control_type.map ControlType.tok),
       ("preview-image", c.preview_image)] := rfl
  have ha1 := getAttr_of_attribs _ _ pairs_def "namespace" (by simp)
  have ha2 := getAttr_of_attribs _ _ pairs_def "constructor" (by simp)
  have ha3 := getAttr_of_attribs _ _ pairs_def "version" (by simp)
  have ha4 := getAttr_of_attribs _ _ pairs_def "display-name-key" (by simp)
  have ha5 := getAttr_of_attribs _ _ pairs_def "description-key" (by simp)
  have ha6 := getAttr_of_attribs _ _ pairs_def "control-type" (by simp)
  have ha7 := getAttr_of_attribs _ _ pairs_def "preview-image" (by simp)
  simp only [lookupOA] at ha1 ha2 ha3 ha4 ha5 ha6 ha7
  simp [empty_to_none_of_ne, hns] at ha1
  simp [empty_to_none_of_ne, hct] at ha2
  simp [empty_to_none_of_ne, hv] at ha3
  simp [empty_to_none_of_ne, hd] at ha4
  simp [empty_to_none_optNE g5] at ha5
  simp [empty_to_none_map_tok controlType_tok_ne] at ha6
  simp [empty_to_none_optNE g6] at ha7
  have hipr := v_items_map_map_ok (v_model validate_property)
    property_to_element (fun e => PValue.PDict (parse_property e)) c.property
    (fun p hp => rt_property p (List.all_eq_true.mp g7 p hp)) 0
  have hiev := v_items_map_map_ok (v_model validate_event)
    event_to_element (fun e => PValue.PDict (parse_event e)) c.event
    (fun p hp => rt_event p (List.all_eq_true.mp g8 p hp)) 0
  have hids := v_items_map_map_ok (v_model validate_dataset)
    dataset_to_element (fun e => PValue.PDict (parse_dataset e)) c.data_set
    (fun p hp => rt_dataset p (List.all_eq_true.mp g9 p hp)) 0
  have hitg := v_items_map_map_ok (v_model validate_type_group)
    type_group_to_element (fun e => PValue.PDict (parse_type_group e))
    c.type_group
    (fun p hp => rt_type_group p (List.all_eq_true.mp g10 p hp)) 0
  simp only [List.map_map] at hipr hiev hids hitg
  have hpd := v_opt_obj_val_map2 validate_property_dependencies
    "property-dependencies" c.property_dependencies
    property_dependencies_to_element
    (fun e => PValue.PDict (parse_property_dependencies e))
    (fun t htt => by
      simp only [v_model]
      refine rt_property_dependencies t ?_
      rw [htt] at g11
      simpa using g11)
  have hfu := v_opt_obj_val_map2 validate_feature_usage "feature-usage"
    c.feature_usage feature_usage_to_element
    (fun e => PValue.PDict (parse_feature_usage e))
    (fun t htt => by
      simp only [v_model]
      refine rt_feature_usage t ?_
      rw [htt] at g12
      simpa using g12)
  have hesu := v_opt_obj_val_map2 validate_external_service_usage
    "external-service-usage" c.external_service_usage
    external_service_usage_to_element
    (fun e => PValue.PDict (parse_external_service_usage e))
    (fun t htt => by
      simp only [v_model]
      refine rt_external_service_usage t ?_ (htrim t htt)
      rw [htt] at g13
      simpa using g13)
  have hpa := v_opt_obj_val_map2 validate_platform_action "platform-action"
    c.platform_action platform_action_to_element
    (fun e => PValue.PDict (parse_platform_action e))
    (fun t _ => by
      simp only [v_model]
      exact rt_platform_action t)
  simp only [Option.map_map] at hpd hfu hesu hpa
  simp only [parse_control, str_frag_eq, ha1, ha2, ha3, ha4, ha5, ha6, ha7,
    empty_to_none_of_ne hns, empty_to_none_of_ne hct, empty_to_none_of_ne hv,
    empty_to_none_of_ne hd, empty_to_none_optNE g5, empty_to_none_optNE g6,
    empty_to_none_map_tok controlType_tok_ne, children_control_property,
    children_control_event, children_control_data_set,
    children_control_type_group, first_child_control_pd,
    first_child_control_fu, first_child_control_esu, first_child_control_pa,
    first_child_control_resources, List.map_map, Option.map_map]
  simp [validate_control, v_req_alnum_str, v_req_str, v_opt_str, v_opt_enum,
    v_req_obj, v_req_obj_val, v_opt_obj, v_list_obj, v_list_obj_val, v_model,
    getKeyA_or, getKey_append, getKey_entryOf, getKey, va, v_extra,
    v_req_str_val_some hns, v_req_str_val_some hct, v_req_str_val_some hv,
    v_req_str_val_some hd, g1, g2, v_opt_str_val_map g5, v_opt_str_val_map g6,
    v_opt_enum_val_comp controlType_ofTok_tok, hipr, hiev, hids, hitg, hpd,
    hfu, hesu, hpa, rt_resources c.resources g14, Except.mapError,
    Option.or_self, filter_entryOf_false]

/-- Trimmed-domain condition: every external-service-usage domain value is
free of leading/trailing whitespace (`value.strip() == value`). -/
def Manifest.domainsTrimmedB (m : Manifest) : Bool :=
  match m.control.external_service_usage with
  | some esu => esu.domain.all (fun d => py_strip d.value == d.value)
  | none => true

theorem round_trip_of_valid (m : Manifest) (h : m.validB = true)
    (htrim : m.domainsTrimmedB = true) : round_trip m = some m := by
  have htrim' : ∀ u, m.control.external_service_usage = some u →
      ∀ d ∈ u.domain, py_strip d.value = d.value := by
    intro u hu d hd
    unfold Manifest.domainsTrimmedB at htrim
    rw [hu] at htrim
    have := List.all_eq_true.mp htrim d hd
    simpa using this
  rw [Manifest.validB] at h
  unfold round_trip parse_manifest_xml_element
  rw [show strip_ns (manifest_to_element m).tag = "manifest" from rfl]
  simp only [ne_eq, not_true_eq_false, if_false, first_child_manifest_control]
  simp [validate_manifest, v_req_obj, v_req_obj_val, v_model, getKeyA_or,
    getKey, va, v_extra, rt_control m.control h htrim', Except.mapError,
    Option.or_self]

/-! ## Claim theorems -/

/-- A valid manifest whose external-service-usage domain value carries
surrounding whitespace: the importer strips and would drop blank text, so
the round trip changes it. -/
def c1cex_m : Manifest :=
  ⟨⟨"Sample", "SampleControl", "1.0.0", "Sample_Display", none, none, none,
    [], [], [], [], none, none, some ⟨none, [⟨" x "⟩]⟩, none,
    ⟨⟨"index.ts", 1⟩, [], [], [], [], []⟩⟩⟩

/-- What the round trip actually returns for `c1cex_m`. -/
def c1cex_m' : Manifest :=
  ⟨⟨"Sample", "SampleControl", "1.0.0", "Sample_Display", none, none, none,
    [], [], [], [], none, none, some ⟨none, [⟨"x"⟩]⟩, none,
    ⟨⟨"index.ts", 1⟩, [], [], [], [], []⟩⟩⟩

/-- C1 (counterexample): the round-trip law fails as universally stated:
`c1cex_m` is a ValidatedManifest (its `validB` holds), yet
`validate (import (serialize m))` returns a different manifest, because
`_parse_external_service_usage` strips domain text. -/
theorem c1_round_trip_counterexample :
    c1cex_m.validB = true ∧ round_trip c1cex_m = some c1cex_m' ∧
    ¬(c1cex_m' = c1cex_m) ∧ ¬(round_trip c1cex_m = some c1cex_m) := by
  refine ⟨by decide, by decide, by decide, ?_⟩
  intro hcontra
  rw [show round_trip c1cex_m = some c1cex_m' from by decide] at hcontra
  have : c1cex_m' = c1cex_m := by
    injection hcontra
  exact absurd this (by decide)

/-- C1 (amended): for every ValidatedManifest `m` whose
external-service-usage domain values carry no leading or trailing
whitespace, `validate (import_from_xml (serialize_to_xml m)) = m`:
the round trip reproduces `m` exactly. -/
theorem c1_round_trip_amended (m : Manifest) (h : m.validB = true)
    (htrim : m.domainsTrimmedB = true) : round_trip m = some m :=
  round_trip_of_valid m h htrim

/-- A manifest exercising every entity of the data model. -/
def c1wit_m : Manifest :=
  ⟨⟨"Sample", "SampleControl", "1.0.0", "Sample_Display", some "desc",
    some .standard, some "img.png",
    [⟨"prop1", some "P_Disp", some "P_Desc", some .enum, none, some .bound,
      some true, some "dv", some "pfx", some ⟨[⟨.wholeNone⟩]⟩,
      [⟨"v1", "V1", 3⟩, ⟨"v2", "V2", -17⟩]⟩,
     ⟨"prop2", none, none, none, some "grp", none, some false, none, none,
      none, []⟩],
    [⟨"ev", some "E", none, some "fx"⟩],
    [⟨"ds", "DS", none, some "opt",
      [⟨"col", "Col", none, some .singleLineText, none, some .input,
        some true, some ⟨[⟨.currency⟩, ⟨.decimal⟩]⟩⟩]⟩],
    [⟨"grp", [⟨.lookupSimple⟩]⟩],
    some ⟨[⟨"prop1", "prop2", .schema⟩]⟩,
    some ⟨[⟨"feat", true⟩, ⟨"feat2", false⟩]⟩,
    some ⟨some true, [⟨"example.com"⟩]⟩,
    some ⟨some .afterPageLoad⟩,
    ⟨⟨"index.ts", 1⟩, [⟨"a.css", some 2⟩, ⟨"b.css", none⟩], [⟨"i.png"⟩],
      [⟨"s.resx", "1.0.0"⟩], [⟨.react, "16.8.0"⟩],
      [⟨.control, "lib.ctl", some 9, some .onDemand⟩]⟩⟩⟩

/-- C1 witness: the amended round-trip law at a concrete full-featured
manifest. -/
theorem c1_round_trip_witness : round_trip c1wit_m = some c1wit_m :=
  c1_round_trip_amended c1wit_m (by decide) (by decide)

/-- Plain data for a Property whose `of-type` is the given token. -/
def c2_prop_dict (tokStr : String) : PObj :=
  [("name", PValue.PStr "p"), ("of-type", PValue.PStr tokStr)]

/-- Plain data for a TypeGroup whose type list contains the given token. -/
def c2_type_group_dict (tokStr : String) : PObj :=
  [("name", PValue.PStr "g"),
   ("type", PValue.PList [PValue.PDict [("value", PValue.PStr tokStr)]])]

/-- C2 (counterexample): a TypeGroup whose type list contains the
denylisted token `Lookup.Customer` does NOT succeed: `TypeElement.value`
is typed as the `TypeValue` enum, which contains no denylisted token, so
enum-membership validation rejects it. -/
theorem c2_denylist_counterexample :
    validate_type_group (c2_type_group_dict "Lookup.Customer") =
      .error [⟨["type", "0", "value"], "Input should be a valid TypeValue",
        "enum"⟩] := rfl

/-- C2 (amended): for every denylisted token, a Property with that
`of-type` fails validation, and a TypeGroup whose type list contains the
same token ALSO fails validation (by enum membership, since no denylisted
token is a `TypeValue`). -/
theorem c2_denylist_law (tokStr : String)
    (htok : tokStr ∈ UNSUPPORTED_TYPE_VALUES) :
    (validate_property (c2_prop_dict tokStr)).isOk = false ∧
    (validate_type_group (c2_type_group_dict tokStr)).isOk = false := by
  fin_cases htok <;> exact ⟨by decide, by decide⟩

/-- C2 witness: the amended denylist law at `Lookup.Owner`. -/
theorem c2_denylist_witness :
    (validate_property (c2_prop_dict "Lookup.Owner")).isOk = false ∧
    (validate_type_group (c2_type_group_dict "Lookup.Owner")).isOk = false :=
  c2_denylist_law "Lookup.Owner" (by decide)

/-- C3 (counterexample): the input `{"name": ""}` violates two invariants
at once — `name` must be non-empty (field-level) and the property needs
`of-type` or `of-type-group` (model-level, checked by
`_validate_type_requirements`, as the second conjunct shows) — yet
construction reports ONLY the field-level violation: the model validator
does not run when field validation failed. -/
theorem c3_batch_counterexample :
    validate_property [("name", PValue.PStr "")] =
      .error [⟨["name"], "String should have at least 1 character",
        "string_too_short"⟩] ∧
    validate_property [("name", PValue.PStr "x")] =
      .error [⟨[], "Value error, property requires of-type or of-type-group",
        "value_error"⟩] :=
  ⟨rfl, rfl⟩

/-- The error batch a validation result carries (`[]` for success). -/
def resErrs {α : Type} : VRes α → List VErr
  | .ok _ => []
  | .error e => e

theorem resErrs_va {α β : Type} (x : VRes (α → β)) (y : VRes α) :
    resErrs (va x y) = resErrs x ++ resErrs y := by
  cases x <;> cases y <;> simp [va, resErrs]

theorem resErrs_mapError {α : Type} (r : VRes α) (g : VErr → VErr) :
    resErrs (r.mapError (List.map g)) = (resErrs r).map g := by
  cases r <;> rfl

/-- Per-item error batches of a list validation: each item's errors with
its index prefixed to its path. -/
def itemErrs {α : Type} (f : PValue → VRes α) : Nat → List PValue → List VErr
  | _, [] => []
  | i, v :: rest =>
      (resErrs (f v)).map (pathCons (nat_str i)) ++ itemErrs f (i + 1) rest

theorem resErrs_v_items {α : Type} (f : PValue → VRes α) (vs : List PValue) :
    ∀ i, resErrs (v_items f i vs) = itemErrs f i vs := by
  induction vs with
  | nil => intro i; rfl
  | cons v rest ih =>
      intro i
      simp only [v_items, itemErrs, resErrs_va, resErrs_mapError, ih (i + 1)]
      rfl

theorem v_after_error_of_errs {α : Type} (cross : α → Option VErr)
    (r : VRes α) (h : ¬(resErrs r = [])) :
    v_after cross r = .error (resErrs r) := by
  cases r with
  | error e => rfl
  | ok x => exact absurd rfl h

/-- C3 (amended): for EVERY plain-data input, the construction error
batch is exactly the concatenation of the per-field error batches — all
field-level violations are collected together as (path, message, kind)
triples, never short-circuited on the first failure (first conjunct, the
EnumValue field pipeline).  For EVERY item list, a list-valued field
collects every item's error batch, each under its item index (second
conjunct, type-group members).  And for EVERY input to an entity with an
`@model_validator(mode="after")` cross-check (TypeGroup), so long as any
field-level violation exists the result is exactly the batch of all
field-level violations, across fields and sub-entities alike — the
model-level check runs only when field validation succeeded, so its
violation is never part of such a batch. -/
theorem c3_batch_errors :
    (∀ d : PObj, resErrs (validate_enum_value d) =
      resErrs (v_req_str d "name" "name") ++
      resErrs (v_req_str d "display-name-key" "display_name_key") ++
      resErrs (v_req_int d "value" "value") ++
      resErrs (v_extra d ["name", "display-name-key", "display_name_key",
        "value"])) ∧
    (∀ (vs : List PValue) (i : Nat),
      resErrs (v_items (v_model validate_type_element) i vs) =
        itemErrs (v_model validate_type_element) i vs) ∧
    (∀ d : PObj,
      ¬(resErrs (v_req_str d "name" "name") ++
        resErrs (v_list_obj validate_type_element d "type" "types") ++
        resErrs (v_extra d ["name", "type", "types"]) = []) →
      validate_type_group d = .error
        (resErrs (v_req_str d "name" "name") ++
         resErrs (v_list_obj validate_type_element d "type" "types") ++
         resErrs (v_extra d ["name", "type", "types"]))) := by
  refine ⟨?_, ?_, ?_⟩
  · intro d
    simp only [validate_enum_value, resErrs_va]
    rfl
  · intro vs i
    exact resErrs_v_items (v_model validate_type_element) vs i
  · intro d hne
    unfold validate_type_group
    rw [v_after_error_of_errs]
    · rw [resErrs_va, resErrs_va, resErrs_va]
      rfl
    · rw [resErrs_va, resErrs_va, resErrs_va]
      exact hne

/-- C3 witness: the universal field-batching law at the concrete input
with empty name and display key — both violations are reported together
in one batch. -/
theorem c3_batch_errors_witness :
    resErrs (validate_enum_value
      [("name", PValue.PStr ""), ("display-name-key", PValue.PStr ""),
       ("value", PValue.PInt 1)]) =
      [⟨["name"], "String should have at least 1 character",
        "string_too_short"⟩,
       ⟨["display-name-key"], "String should have at least 1 character",
        "string_too_short"⟩] :=
  (c3_batch_errors.1
    [("name", PValue.PStr ""), ("display-name-key", PValue.PStr ""),
     ("value", PValue.PInt 1)]).trans (by decide)

theorem mem_ordered_attribs (pairs : List (String × Option String))
    (k v : String) :
    (k, v) ∈ ordered_attribs pairs ↔ ((k, some v) ∈ pairs ∧ ¬(v = "")) := by
  unfold ordered_attribs
  rw [List.mem_filterMap]
  constructor
  · rintro ⟨⟨k', v'⟩, hmem, heq⟩
    cases v' with
    | none => simp at heq
    | some s =>
        by_cases hs : s = ""
        · simp [hs] at heq
        · dsimp only at heq
          rw [if_neg hs] at heq
          injection heq with h
          injection h with hk hv
          subst hk
          subst hv
          exact ⟨hmem, hs⟩
  · rintro ⟨hmem, hv⟩
    exact ⟨(k, some v), hmem, by simp [hv]⟩

/-- C4: the serializer's attribute-omission rule.  First conjunct: an
attribute/value pair is emitted by `_ordered_attribs` iff that value was
supplied and is non-empty (absent/`None`/`""` produce no attribute).
Second/third conjuncts: present booleans render exactly as lowercase
`"true"`/`"false"`, absent ones not at all; numeric orders render as
non-empty decimal digit strings (re-parsing as an integer recovers the
value).  The per-entity equations show every entity's attributes are
built through `_ordered_attribs` with these renderings.  The final
conjuncts instantiate the rule: `required` is emitted iff present,
`description-key` iff present and non-empty, and a valid `Css`'s `order`
iff present. -/
theorem c4_omission_rule :
    (∀ (pairs : List (String × Option String)) (k v : String),
      ((k, v) ∈ ordered_attribs pairs) ↔ ((k, some v) ∈ pairs ∧ ¬(v = ""))) ∧
    (bool_value none = none ∧ bool_value (some true) = some "true" ∧
      bool_value (some false) = some "false") ∧
    (∀ n : Nat, ¬(nat_str n = "") ∧ (∀ c ∈ (nat_str n).data, c.isDigit = true) ∧
      parse_py_int (nat_str n) = some (n : Int)) ∧
    (∀ x : Control, (control_to_element x).attribs = ordered_attribs
      [("namespace", some x.nspace), ("constructor", some x.constructor),
       ("version", some x.version),
       ("display-name-key", some x.display_name_key),
       ("description-key", x.description_key),
       ("control-type", x.control_type.map ControlType.tok),
       ("preview-image", x.preview_image)]) ∧
    (∀ x : Property, (property_to_element x).attribs = ordered_attribs
      [("name", some x.name), ("display-name-key", x.display_name_key),
       ("description-key", x.description_key),
       ("of-type", x.of_type.map TypeValue.tok),
       ("of-type-group", x.of_type_group),
       ("usage", x.usage.map PropertyUsage.tok),
       ("required", bool_value x.required),
       ("default-value", x.default_value),
       ("pfx-default-value", x.pfx_default_value)]) ∧
    (∀ x : Event, (event_to_element x).attribs = ordered_attribs
      [("name", some x.name), ("pfx-default-value", x.pfx_default_value),
       ("display-name-key", x.display_name_key),
       ("description-key", x.description_key)]) ∧
    (∀ x : DataSet, (dataset_to_element x).attribs = ordered_attribs
      [("name", some x.name), ("display-name-key", some x.display_name_key),
       ("description-key", x.description_key),
       ("cds-data-set-options", x.cds_data_set_options)]) ∧
    (∀ x : PropertySet, (property_set_to_element x).attribs = ordered_attribs
      [("name", some x.name), ("display-name-key", some x.display_name_key),
       ("description-key", x.description_key),
       ("of-type", x.of_type.map TypeValue.tok),
       ("of-type-group", x.of_type_group),
       ("usage", x.usage.map PropertySetUsage.tok),
       ("required", bool_value x.required)]) ∧
    (∀ x : EnumValue, (enum_value_to_element x).attribs = ordered_attribs
      [("name", some x.name),
       ("display-name-key", some x.display_name_key)]) ∧
    (∀ x : TypeGroup, (type_group_to_element x).attribs = ordered_attribs
      [("name", some x.name)]) ∧
    (∀ x : PropertyDependency,
      (property_dependency_to_element x).attribs = ordered_attribs
        [("input", some x.input), ("output", some x.output),
         ("required-for", some x.required_for.tok)]) ∧
    (∀ x : UsesFeature, (uses_feature_to_element x).attribs = ordered_attribs
      [("name", some x.name), ("required", bool_value (some x.required))]) ∧
    (∀ x : ExternalServiceUsage,
      (external_service_usage_to_element x).attribs = ordered_attribs
        [("enabled", bool_value x.enabled)]) ∧
    (∀ x : PlatformAction, (platform_action_to_element x).attribs =
      ordered_attribs
        [("action-type", x.action_type.map PlatformActionType.tok)]) ∧
    (∀ x : Code, (code_to_element x).attribs = ordered_attribs
      [("path", some x.path), ("order", some (nat_str x.order))]) ∧
    (∀ x : Css, (css_to_element x).attribs = ordered_attribs
      [("path", some x.path), ("order", css_order_attr x.order)]) ∧
    (∀ x : Img, (img_to_element x).attribs = ordered_attribs
      [("path", some x.path)]) ∧
    (∀ x : Resx, (resx_to_element x).attribs = ordered_attribs
      [("path", some x.path), ("version", some x.version)]) ∧
    (∀ x : PlatformLibrary, (platform_library_to_element x).attribs =
      ordered_attribs
        [("name", some x.name.tok), ("version", some x.version)]) ∧
    (∀ x : Dependency, (dependency_to_element x).attribs = ordered_attribs
      [("type", some x.type.tok), ("name", some x.name),
       ("order", css_order_attr x.order),
       ("load-type", x.load_type.map DependencyLoadType.tok)]) ∧
    (∀ x : Property,
      ((∃ s, ("required", s) ∈ (property_to_element x).attribs) ↔
        ∃ b, x.required = some b)) ∧
    (∀ x : Property,
      ((∃ s, ("description-key", s) ∈ (property_to_element x).attribs) ↔
        ∃ s, x.description_key = some s ∧ ¬(s = ""))) ∧
    (∀ x : Css, x.validB = true →
      ((∃ s, ("order", s) ∈ (css_to_element x).attribs) ↔
        ¬(x.order = none))) := by
  refine ⟨mem_ordered_attribs, ⟨rfl, rfl, rfl⟩,
    (fun n => ⟨nat_str_ne_empty n, (nat_str_spec n).2.1, parse_py_int_nat_str n⟩),
    (fun _ => rfl), (fun _ => rfl), (fun _ => rfl), (fun _ => rfl),
    (fun _ => rfl), (fun _ => rfl), (fun _ => rfl), (fun _ => rfl),
    (fun _ => rfl), (fun _ => rfl), (fun _ => rfl), (fun _ => rfl),
    (fun _ => rfl), (fun _ => rfl), (fun _ => rfl), (fun _ => rfl),
    (fun _ => rfl), ?_, ?_, ?_⟩
  · intro x
    constructor
    · rintro ⟨s, hs⟩
      simp only [property_to_element, css_to_element, Elem.attribs_mk] at hs
      rw [mem_ordered_attribs] at hs
      obtain ⟨hmem, hne⟩ := hs
      simp only [List.mem_cons, List.not_mem_nil, or_false,
        Prod.mk.injEq] at hmem
      rcases hmem with ⟨h, _⟩ | ⟨h, _⟩ | ⟨h, _⟩ | ⟨h, _⟩ | ⟨h, _⟩ | ⟨h, _⟩ |
        ⟨_, hv⟩ | ⟨h, _⟩ | ⟨h, _⟩ <;> first
        | (exact absurd h (by decide))
        | (cases hb : x.required with
            | none => rw [hb] at hv; simp [bool_value] at hv
            | some b => exact ⟨b, rfl⟩)
    · rintro ⟨b, hb⟩
      refine ⟨if b then "true" else "false", ?_⟩
      simp only [property_to_element, Elem.attribs_mk]
      rw [mem_ordered_attribs]
      refine ⟨by simp [hb, bool_value], by cases b <;> decide⟩
  · intro x
    constructor
    · rintro ⟨s, hs⟩
      simp only [property_to_element, css_to_element, Elem.attribs_mk] at hs
      rw [mem_ordered_attribs] at hs
      obtain ⟨hmem, hne⟩ := hs
      simp only [List.mem_cons, List.not_mem_nil, or_false,
        Prod.mk.injEq] at hmem
      rcases hmem with ⟨h, _⟩ | ⟨h, _⟩ | ⟨_, hv⟩ | ⟨h, _⟩ | ⟨h, _⟩ | ⟨h, _⟩ |
        ⟨h, _⟩ | ⟨h, _⟩ | ⟨h, _⟩ <;> first
        | (exact absurd h (by decide))
        | (exact ⟨s, hv.symm, hne⟩)
    · rintro ⟨s, hs, hne⟩
      refine ⟨s, ?_⟩
      simp only [property_to_element, Elem.attribs_mk]
      rw [mem_ordered_attribs]
      exact ⟨by simp [hs], hne⟩
  · intro x hx
    rw [Css.validB, Bool.and_eq_true] at hx
    obtain ⟨hx1, hx2⟩ := hx
    constructor
    · rintro ⟨s, hs⟩
      simp only [property_to_element, css_to_element, Elem.attribs_mk] at hs
      rw [mem_ordered_attribs] at hs
      obtain ⟨hmem, hne⟩ := hs
      simp only [List.mem_cons, List.not_mem_nil, or_false,
        Prod.mk.injEq] at hmem
      rcases hmem with ⟨h, _⟩ | ⟨_, hv⟩
      · exact absurd h (by decide)
      · intro hnone
        rw [hnone] at hv
        simp [css_order_attr] at hv
    · intro hne
      cases ho : x.order with
      | none => exact absurd ho hne
      | some n =>
          have hn : ¬(n = 0) := by
            rw [ho] at hx2
            simp only [optPos, decide_eq_true_eq] at hx2
            omega
          refine ⟨nat_str n, ?_⟩
          simp only [css_to_element, Elem.attribs_mk]
          rw [mem_ordered_attribs]
          exact ⟨by simp [css_order_attr, ho, hn], nat_str_ne_empty n⟩

/-- C4 witness: the instantiated omission rule at a concrete valid Css
with a present order. -/
theorem c4_omission_rule_witness :
    (∃ s, ("order", s) ∈ (css_to_element ⟨"a.css", some 2⟩).attribs) ↔
      ¬((⟨"a.css", some 2⟩ : Css).order = none) :=
  c4_omission_rule.2.2.2.2.2.2.2.2.2.2.2.2.2.2.2.2.2.2.2.2.2.2
    ⟨"a.css", some 2⟩ (by decide)

/-- C5: the importer's only fatal conditions.  `parse_manifest_xml_element`
succeeds if and only if the namespace-stripped root tag is `"manifest"`
and the root has a `control` child; under any other input it fails, and
when both conditions hold it returns (possibly partial) plain data and
never fails, deferring every other problem to validation. -/
theorem c5_importer_fatal_conditions (e : Elem) :
    (∃ d, parse_manifest_xml_element e = .ok d) ↔
      (strip_ns e.tag = "manifest" ∧
        ∃ ce, first_child e "control" = some ce) := by
  by_cases ht : strip_ns e.tag = "manifest"
  · cases hc : first_child e "control" with
    | none => simp [parse_manifest_xml_element, ht, hc]
    | some ce => simp [parse_manifest_xml_element, ht, hc]
  · simp [parse_manifest_xml_element, ht]

/-- C6 counterexample: an enum-value element whose text is whitespace-only
(`" "`) is not an integer, yet the importer does not keep the raw trimmed
string (`""`) as the value — it omits the `value` key entirely, because
`_parse_value` drops text that strips to empty. -/
theorem c6_lenient_import_counterexample :
    getKey (parse_value
        (Elem.mk "value" [("name", "v"), ("display-name-key", "V")] " " []))
      "value" = none ∧
    ¬(getKey (parse_value
        (Elem.mk "value" [("name", "v"), ("display-name-key", "V")] " " []))
      "value" = some (PStr "")) :=
  ⟨rfl, fun h => Option.noConfusion h⟩

/-- C6 (amended): the lenient-import law restricted to the cases the code
implements.  (1) An enum-value element whose *stripped* text is non-empty
and not an integer keeps the stripped string as the value.  (2) A
dependency `order` attribute whose stripped value is non-empty and not an
integer keeps the stripped string.  (3) An empty `order=""` attribute is
omitted from the imported dict entirely.  (Whitespace-only text/values
are omitted, not kept as `""`; kept strings are the stripped form of the
raw input.) -/
theorem c6_lenient_import_amended :
    (∀ e : Elem, ¬(py_strip e.text = "") →
      parse_py_int (py_strip e.text) = none →
      getKey (parse_value e) "value" = some (PStr (py_strip e.text))) ∧
    (∀ (e : Elem) (raw : String), e.getAttr "order" = some raw →
      ¬(py_strip raw = "") → parse_py_int (py_strip raw) = none →
      getKey (parse_dependency e) "order" = some (PStr (py_strip raw))) ∧
    (∀ e : Elem, e.getAttr "order" = some "" →
      getKey (parse_dependency e) "order" = none) := by
  refine ⟨?_, ?_, ?_⟩
  · intro e hne hint
    unfold parse_value
    rw [getKey_append, getKey_append, str_frag_eq, str_frag_eq,
      getKey_entryOf, getKey_entryOf]
    simp [hne, hint, getKey]
  · intro e raw hattr hne hint
    unfold parse_dependency
    rw [getKey_append, getKey_append, getKey_append, str_frag_eq,
      str_frag_eq, str_frag_eq, int_frag_eq, getKey_entryOf, getKey_entryOf,
      getKey_entryOf, getKey_entryOf]
    simp [hattr, pyIntLex, hne, hint, getKey]
  · intro e hattr
    unfold parse_dependency
    rw [getKey_append, getKey_append, getKey_append, str_frag_eq,
      str_frag_eq, str_frag_eq, int_frag_eq, getKey_entryOf, getKey_entryOf,
      getKey_entryOf, getKey_entryOf]
    simp [hattr, pyIntLex, py_strip_empty]

/-- C6 witness: the amended lenient-import law at the concrete inputs
`<value>not-an-int</value>`, `order="bad"` and `order=""`. -/
theorem c6_lenient_import_witness :
    getKey (parse_value (Elem.mk "value" [("name", "v")] "not-an-int" []))
      "value" = some (PStr "not-an-int") ∧
    getKey (parse_dependency (Elem.mk "dependency"
        [("type", "control"), ("name", "lib.control"), ("order", "bad")]
        "" [])) "order" = some (PStr "bad") ∧
    getKey (parse_dependency (Elem.mk "dependency"
        [("type", "control"), ("name", "lib.control"), ("order", "")]
        "" [])) "order" = none := by
  refine ⟨?_, ?_, ?_⟩
  · have h := c6_lenient_import_amended.1
      (Elem.mk "value" [("name", "v")] "not-an-int" [])
      (by decide) (by decide)
    rw [h]
    exact rfl
  · have h := c6_lenient_import_amended.2.1
      (Elem.mk "dependency"
        [("type", "control"), ("name", "lib.control"), ("order", "bad")]
        "" []) "bad" (by decide) (by decide) (by decide)
    rw [h]
    exact rfl
  · exact c6_lenient_import_amended.2.2
      (Elem.mk "dependency"
        [("type", "control"), ("name", "lib.control"), ("order", "")]
        "" []) (by decide)

theorem map_tag_optElems {α : Type} (o : Option α) (f : α → Elem)
    (g : Elem → String) :
    (optElems o f).map g = (o.map fun x => g (f x)).toList := by
  cases o <;> rfl

/-- C7: serializer child order.  A control element's children carry tags
in the fixed order property*, event*, data-set*, type-group*,
property-dependencies?, feature-usage?, external-service-usage?,
platform-action?, resources; the last child is always the (single)
resources element; and a resources element's children start with the code
element followed by css*, resx*, img*, platform-library*, dependency*. -/
theorem c7_child_order :
    (∀ c : Control, (control_to_element c).children.map Elem.tag =
      c.property.map (fun _ => "property") ++
      c.event.map (fun _ => "event") ++
      c.data_set.map (fun _ => "data-set") ++
      c.type_group.map (fun _ => "type-group") ++
      (c.property_dependencies.map fun _ => "property-dependencies").toList ++
      (c.feature_usage.map fun _ => "feature-usage").toList ++
      (c.external_service_usage.map fun _ =>
        "external-service-usage").toList ++
      (c.platform_action.map fun _ => "platform-action").toList ++
      ["resources"]) ∧
    (∀ c : Control, (control_to_element c).children.getLast? =
      some (resources_to_element c.resources)) ∧
    (∀ r : Resources, (resources_to_element r).children.head? =
      some (code_to_element r.code)) ∧
    (∀ r : Resources, (resources_to_element r).children.map Elem.tag =
      "code" :: (r.css.map (fun _ => "css") ++
        r.resx.map (fun _ => "resx") ++ r.img.map (fun _ => "img") ++
        r.platform_library.map (fun _ => "platform-library") ++
        r.dependency.map (fun _ => "dependency"))) := by
  refine ⟨?_, ?_, ?_, ?_⟩
  · intro c
    simp [control_to_element, map_tag_optElems, Function.comp_def]
  · intro c
    simp only [control_to_element, Elem.children_mk]
    exact List.getLast?_concat _
  · intro r
    rfl
  · intro r
    simp [resources_to_element, Function.comp_def]

theorem v_items_map_ok2 {α β : Type} (f : PValue → VRes β) (F : α → PValue)
    (G : α → β) (xs : List α) (h : ∀ x ∈ xs, f (F x) = .ok (G x)) :
    ∀ i, v_items f i (xs.map F) = .ok (xs.map G) := by
  induction xs with
  | nil => intro i; rfl
  | cons x rest ih =>
      intro i
      simp only [List.map_cons, v_items, h x (by simp)]
      rw [ih (fun y hy => h y (by simp [hy])) (i + 1)]
      rfl

/-- C8: the external-service cross-validator.  `enabled=true` with an
empty domain list fails validation; `enabled=true` with at least one
(non-empty-string) domain succeeds, producing exactly those domains;
`enabled=false` with zero domains succeeds; absent `enabled` with zero
domains succeeds. -/
theorem c8_external_service :
    ((validate_external_service_usage
        [("enabled", PBool true), ("domain", PList [])]).isOk = false) ∧
    (∀ ds : List String, ¬(ds = []) → (∀ s ∈ ds, ¬(s = "")) →
      validate_external_service_usage
        [("enabled", PBool true),
         ("domain", PList (ds.map (fun s => PDict [("value", PStr s)])))] =
        .ok ⟨some true, ds.map Domain.mk⟩) ∧
    (validate_external_service_usage
        [("enabled", PBool false), ("domain", PList [])] =
      .ok ⟨some false, []⟩) ∧
    (validate_external_service_usage [] = .ok ⟨none, []⟩) := by
  refine ⟨by decide, ?_, rfl, rfl⟩
  intro ds hne hs
  have hdom : ∀ s ∈ ds, v_model validate_domain (PDict [("value", PStr s)]) =
      .ok (Domain.mk s) := by
    intro s hmem
    simp [v_model, validate_domain, v_req_str, getKeyA, getKey,
      v_req_str_val, hs s hmem, v_extra, va]
  have hitems := v_items_map_ok2 (v_model validate_domain)
    (fun s => PDict [("value", PStr s)]) Domain.mk ds hdom 0
  simp [validate_external_service_usage, v_after, v_opt_bool, v_opt_bool_val,
    v_list_obj, v_list_obj_val, getKeyA, getKey, boolOfPValue, hitems,
    v_extra, va, Except.mapError, external_service_usage_cross, isEmpty_map,
    hne]

/-- C8 witness: the success law at the one-domain list
`["example.com"]`. -/
theorem c8_external_service_witness :
    validate_external_service_usage
      [("enabled", PBool true),
       ("domain", PList [PDict [("value", PStr "example.com")]])] =
      .ok ⟨some true, [Domain.mk "example.com"]⟩ := by
  have h := c8_external_service.2.1 ["example.com"] (by decide) (by decide)
  exact h

theorem isOk_va_left {α β : Type} {x : VRes (α → β)} (y : VRes α)
    (h : x.isOk = false) : (va x y).isOk = false := by
  cases x with
  | error e => cases y <;> rfl
  | ok f => simp [Except.isOk, Except.toBool] at h

theorem isOk_va_right {α β : Type} (x : VRes (α → β)) {y : VRes α}
    (h : y.isOk = false) : (va x y).isOk = false := by
  cases y with
  | error e => cases x <;> rfl
  | ok a => simp [Except.isOk, Except.toBool] at h

def c9_control_dict (ns ctor : String) : PObj :=
  [("namespace", PStr ns), ("constructor", PStr ctor),
   ("version", PStr "1.0.0"), ("display-name-key", PStr "Display"),
   ("resources", PDict
     [("code", PDict [("path", PStr "index.ts"), ("order", PInt 1)])])]

/-- C9: the alphanumeric field validator on `Control`.  A namespace (or
constructor) containing any non-alphanumeric character — hyphen, space,
punctuation — fails validation of an otherwise-valid control dict; purely
alphanumeric non-empty strings pass, yielding the control. -/
theorem c9_alnum :
    (∀ ns : String, (∃ ch ∈ ns.data, ch.isAlphanum = false) →
      (validate_control (c9_control_dict ns "Constructor")).isOk = false) ∧
    (∀ ctor : String, (∃ ch ∈ ctor.data, ch.isAlphanum = false) →
      (validate_control (c9_control_dict "GoodName" ctor)).isOk = false) ∧
    (∀ ns ctor : String, py_isalnum ns = true → py_isalnum ctor = true →
      validate_control (c9_control_dict ns ctor) =
        .ok ⟨ns, ctor, "1.0.0", "Display", none, none, none, [], [], [], [],
          none, none, none, none, ⟨⟨"index.ts", 1⟩, [], [], [], [], []⟩⟩) := by
  refine ⟨?_, ?_, ?_⟩
  · intro ns hbad
    obtain ⟨ch, hmem, hch⟩ := hbad
    have hall : ns.data.all Char.isAlphanum = false := by
      by_contra hcon
      rw [Bool.not_eq_false, List.all_eq_true] at hcon
      have := hcon ch hmem
      rw [hch] at this
      exact Bool.false_ne_true this
    have halnum : py_isalnum ns = false := by
      simp [py_isalnum, hall]
    by_cases hns0 : ns = ""
    · subst hns0
      decide
    · have hval : v_req_alnum_str (c9_control_dict ns "Constructor")
          "namespace" "namespace" = .error (vErr1 ["namespace"]
            "Value error, Value must contain only letters or numbers"
            "value_error") := by
        simp [v_req_alnum_str, v_req_str, c9_control_dict, getKeyA, getKey,
          v_req_str_val, hns0, halnum]
      simp only [validate_control]
      refine isOk_va_left _ (isOk_va_left _ (isOk_va_left _ (isOk_va_left _
        (isOk_va_left _ (isOk_va_left _ (isOk_va_left _ (isOk_va_left _
        (isOk_va_left _ (isOk_va_left _ (isOk_va_left _ (isOk_va_left _
        (isOk_va_left _ (isOk_va_left _ (isOk_va_left _ (isOk_va_left _
        (isOk_va_right _ ?_))))))))))))))))
      rw [hval]
      rfl
  · intro ctor hbad
    obtain ⟨ch, hmem, hch⟩ := hbad
    have hall : ctor.data.all Char.isAlphanum = false := by
      by_contra hcon
      rw [Bool.not_eq_false, List.all_eq_true] at hcon
      have := hcon ch hmem
      rw [hch] at this
      exact Bool.false_ne_true this
    have halnum : py_isalnum ctor = false := by
      simp [py_isalnum, hall]
    by_cases hc0 : ctor = ""
    · subst hc0
      decide
    · have hval : v_req_alnum_str (c9_control_dict "GoodName" ctor)
          "constructor" "constructor" = .error (vErr1 ["constructor"]
            "Value error, Value must contain only letters or numbers"
            "value_error") := by
        simp [v_req_alnum_str, v_req_str, c9_control_dict, getKeyA, getKey,
          v_req_str_val, hc0, halnum]
      simp only [validate_control]
      refine isOk_va_left _ (isOk_va_left _ (isOk_va_left _ (isOk_va_left _
        (isOk_va_left _ (isOk_va_left _ (isOk_va_left _ (isOk_va_left _
        (isOk_va_left _ (isOk_va_left _ (isOk_va_left _ (isOk_va_left _
        (isOk_va_left _ (isOk_va_left _ (isOk_va_left _
        (isOk_va_right _ ?_)))))))))))))))
      rw [hval]
      rfl
  · intro ns ctor hns hctor
    have hns0 : ¬(ns = "") := alnum_ne_empty hns
    have hctor0 : ¬(ctor = "") := alnum_ne_empty hctor
    simp [validate_control, c9_control_dict, v_req_alnum_str, v_req_str,
      v_req_str_val, getKeyA, getKey, hns, hctor, hns0, hctor0, v_opt_str,
      v_opt_str_val, v_opt_enum, v_opt_enum_val, v_list_obj, v_list_obj_val,
      v_opt_obj, v_opt_obj_val, v_req_obj, v_req_obj_val, v_model,
      validate_resources, validate_code, v_req_posint, v_req_int,
      v_req_int_val, intOfPValue, v_extra, va, v_items, Except.mapError]

/-- C9 witness: the alnum law at `"Bad-Name"` (fails) and at
`"GoodName"`/`"GoodCtor"` (succeeds). -/
theorem c9_alnum_witness :
    (validate_control (c9_control_dict "Bad-Name" "Constructor")).isOk =
      false ∧
    validate_control (c9_control_dict "GoodName" "GoodCtor") =
      .ok ⟨"GoodName", "GoodCtor", "1.0.0", "Display", none, none, none,
        [], [], [], [], none, none, none, none,
        ⟨⟨"index.ts", 1⟩, [], [], [], [], []⟩⟩ :=
  ⟨c9_alnum.1 "Bad-Name" (by decide),
   c9_alnum.2.2 "GoodName" "GoodCtor" (by decide) (by decide)⟩

/-- C10: the unsupported-type denylist branch is dead code.  No
`TypeValue` token is in `UNSUPPORTED_TYPE_VALUES`; any token accepted by
enum coercion is therefore outside the denylist; consequently the
`of-type` validator coincides with the plain enum validator (the denylist
check never fires); and a denylisted token on `of-type` is instead
rejected by enum membership (kind `enum`, not the denylist's
`value_error`). -/
theorem c10_denylist_unreachable :
    (∀ t : TypeValue, UNSUPPORTED_TYPE_VALUES.contains t.tok = false) ∧
    (∀ (s : String) (t : TypeValue), TypeValue.ofTok s = some t →
      UNSUPPORTED_TYPE_VALUES.contains t.tok = false) ∧
    (∀ (d : PObj) (al nm : String),
      v_of_type d al nm =
        v_opt_enum TypeValue.ofTok "a valid TypeValue" d al nm) ∧
    (∀ tokStr ∈ UNSUPPORTED_TYPE_VALUES,
      v_of_type [("of-type", PStr tokStr)] "of-type" "of_type" =
        .error (vErr1 ["of-type"] "Input should be a valid TypeValue"
          "enum")) := by
  refine ⟨typeValue_not_unsupported, ?_, ?_, ?_⟩
  · intro s t _
    exact typeValue_not_unsupported t
  · intro d al nm
    unfold v_of_type
    cases hv : v_opt_enum TypeValue.ofTok "a valid TypeValue" d al nm with
    | error e => rfl
    | ok o =>
        cases o with
        | none => rfl
        | some t => simp [typeValue_not_unsupported_mem t]
  · intro tokStr hmem
    fin_cases hmem <;> rfl

/-- C10 witness: enum-accepted tokens avoid the denylist
(at `"Currency"`), and a denylisted token (`"Lookup.Customer"`) is
rejected with kind `enum`. -/
theorem c10_denylist_unreachable_witness :
    UNSUPPORTED_TYPE_VALUES.contains (TypeValue.currency).tok = false ∧
    v_of_type [("of-type", PStr "Lookup.Customer")] "of-type" "of_type" =
      .error (vErr1 ["of-type"] "Input should be a valid TypeValue"
        "enum") :=
  ⟨c10_denylist_unreachable.2.1 "Currency" TypeValue.currency rfl,
   c10_denylist_unreachable.2.2.2 "Lookup.Customer" (by decide)⟩

end Pcf
